/-
Verification of the URL risk-scoring engine of the zero-trust-firewall
backend (services: threat_intel.py, url_analyzer.py, rule_engine.py,
phishing_detector.py) against its natural-language specification.

Modelling conventions:
* Python strings are modelled as `List Char` (abbrev `Str`); ASCII-level
  behaviour of `str.lower`, `str.isdigit`, percent-decoding, etc. is used
  (all inputs relevant to the claims are ASCII apart from the fixed
  homograph tables, which are carried verbatim).
* Python floats are modelled as exact rationals `ℚ`; `round(x, 4)` is
  modelled as decimal rounding half-to-even (`round4`).
* `math.log2` (used only inside Shannon entropy) is a transcendental
  float function; it is modelled as an oracle parameter `lg : ℚ → ℚ`.
  No claim depends on its values.
* Python dicts with fixed key sets are modelled as structures.  The
  "minimal feature dictionary" returned by the extractor's exception
  handler omits most keys; every consumer reads the missing keys through
  `dict.get(key, default)`, so the omitted keys are modelled by fields
  holding exactly those defaults (no consumer reads a missing key with
  two different defaults, hence this is observationally faithful).
* The trained ML model (`ml_detector.predict`) and the semantic/BERT
  scorer (`bert_detector.predict`) are opaque artifacts at scan time and
  are modelled as injected oracles, mirroring the orchestrator's
  dependency structure.  The rule engine, feature extractor and threat
  intel store are embedded in full.
* Reason strings follow the source texts, with the source's embedded
  single-quote characters omitted.
-/

import Mathlib

namespace ZTF

/- The arithmetic of `Rat` is `@[irreducible]` by default, which blocks
the definitional evaluation used by `decide` on concrete inputs; restore
the ordinary reducibility for this file. -/
attribute [local semireducible] Rat.add Rat.sub Rat.mul Rat.inv

/-- Python strings as lists of characters. -/
abbrev Str := List Char

/-! ## Basic string helpers (models of Python `str` methods) -/

/-- ASCII `str.lower` on one character. -/
def lowerChar (c : Char) : Char :=
  if 'A' ≤ c ∧ c ≤ 'Z' then Char.ofNat (c.toNat + 32) else c

/-- ASCII model of Python `str.lower`. -/
def strLower (s : Str) : Str := s.map lowerChar

/-- Python `str.strip` whitespace set. -/
def isPyWhitespace (c : Char) : Bool :=
  c = ' ' ∨ c = '\t' ∨ c = '\n' ∨ c = '\r' ∨ c = '\x0b' ∨ c = '\x0c'

/-- Model of Python `str.strip()`. -/
def pyStrip (s : Str) : Str :=
  ((s.dropWhile isPyWhitespace).reverse.dropWhile isPyWhitespace).reverse

/-- Model of Python `s.split(sep)` for a one-character separator. -/
def splitDots (s : Str) : List Str := s.splitOn '.'

/-- Model of Python `sep.join(parts)` with separator a dot. -/
def joinDots (parts : List Str) : Str := List.intercalate ['.'] parts

/-- Model of Python `", ".join(parts)`. -/
def joinComma (parts : List Str) : Str := List.intercalate (", ".data) parts

/-- Model of Python single-character `str.replace(a, b)`. -/
def replaceChar (a b : Char) (s : Str) : Str :=
  s.map fun c => if c = a then b else c

/-- Model of Python `str.replace(xy, r)` for a two-character pattern and a
one-character replacement (left-to-right, non-overlapping). -/
def replacePair (x y r : Char) : Str → Str
  | a :: b :: rest =>
    if a = x ∧ b = y then r :: replacePair x y r rest
    else a :: replacePair x y r (b :: rest)
  | l => l

/-- Model of Python `str.lstrip(c)` for one character. -/
def lstripChar (c : Char) (s : Str) : Str := s.dropWhile (· = c)

/-- Length of the longest run of characters satisfying `p` (used to model
regexes of the form `[class]{n,}`). -/
def maxRun (p : Char → Bool) (s : Str) : Nat :=
  (s.foldl (fun (acc : Nat × Nat) c =>
    if p c then (max acc.1 (acc.2 + 1), acc.2 + 1) else (acc.1, 0)) (0, 0)).1

/-- Index of the first occurrence of `pat` as a contiguous substring. -/
def infixIdx (pat s : Str) : Option Nat :=
  (List.range (s.length + 1)).find? fun i => pat.isPrefixOf (s.drop i)

/-- Index of the first occurrence of a character. -/
def idxOf (c : Char) (s : Str) : Option Nat := s.findIdx? (· = c)

/-- Python `pat in s` (contiguous substring test). -/
def isSubstring (pat s : Str) : Bool :=
  (List.range (s.length + 1)).any fun i => pat.isPrefixOf (s.drop i)

/-- Numeric value of a decimal digit string. -/
def natOfDigits (s : Str) : Nat :=
  s.foldl (fun acc c => 10 * acc + (c.toNat - '0'.toNat)) 0

def isHexDigit (c : Char) : Bool :=
  ('0' ≤ c ∧ c ≤ '9') ∨ ('a' ≤ c ∧ c ≤ 'f') ∨ ('A' ≤ c ∧ c ≤ 'F')

def hexVal (c : Char) : Nat :=
  if '0' ≤ c ∧ c ≤ '9' then c.toNat - '0'.toNat
  else if 'a' ≤ c ∧ c ≤ 'f' then c.toNat - 'a'.toNat + 10
  else c.toNat - 'A'.toNat + 10

def isAsciiLower (c : Char) : Bool := 'a' ≤ c ∧ c ≤ 'z'

/-! ## Decimal rounding (model of Python `round(x, n)` on exact values) -/

/-- Round to the nearest integer, ties to even (Python `round`). -/
def roundHalfEven (q : ℚ) : ℤ :=
  let f := ⌊q⌋
  if q - f < 1/2 then f
  else if (1:ℚ)/2 < q - f then f + 1
  else if f % 2 = 0 then f else f + 1

/-- Model of Python `round(x, 4)`. -/
def round4 (q : ℚ) : ℚ := (roundHalfEven (q * 10000) : ℚ) / 10000

/-- Model of the Python f-string format `{x:.2f}` for nonnegative values. -/
def formatQ2 (q : ℚ) : String :=
  let n := roundHalfEven (q * 100)
  let frac := n.natAbs % 100
  toString (n / 100) ++ "." ++ (if frac < 10 then "0" else "") ++ toString frac

/-! ## Levenshtein distance (model of `_levenshtein_distance`, the
row-by-row dynamic program shared verbatim by `url_analyzer.py` and
`bert_detector.py`) -/

/-- One inner loop of the DP: walk `s2` in step with the previous row,
carrying the value just written to the current row. -/
def levRowAux (c1 : Char) : Str → List Nat → Nat → List Nat
  | c2 :: s2, pj :: pj1 :: prest, left =>
    let cur := min (pj1 + 1) (min (left + 1) (pj + (if c1 = c2 then 0 else 1)))
    cur :: levRowAux c1 s2 (pj1 :: prest) cur
  | _, _, _ => []

/-- Outer loop over the characters of `s1`; `i` is the running index. -/
def levLoop (s2 : Str) : Str → List Nat → Nat → List Nat
  | [], prev, _ => prev
  | c1 :: s1, prev, i => levLoop s2 s1 ((i + 1) :: levRowAux c1 s2 prev (i + 1)) (i + 1)

def levCore (s1 s2 : Str) : Nat :=
  if s2.length = 0 then s1.length
  else (levLoop s2 s1 (List.range (s2.length + 1)) 0).getLastD 0

/-- `_levenshtein_distance(s1, s2)`. -/
def levenshtein (s1 s2 : Str) : Nat :=
  if s1.length < s2.length then levCore s2 s1 else levCore s1 s2

/-! ## Severity tiers -/

inductive Severity
  | info | low | medium | high | critical
deriving DecidableEq

/-- Position in `severity_order = ["info","low","medium","high","critical"]`. -/
def sevIndex : Severity → Nat
  | .info => 0 | .low => 1 | .medium => 2 | .high => 3 | .critical => 4

def allSeverities : List Severity := [.info, .low, .medium, .high, .critical]

/-! ## Threat intelligence store (`threat_intel.py`) -/

/-- The two indicator sets of `ThreatIntelligenceService` (Python `set`s of
strings, modelled as lists queried by membership). -/
structure IntelState where
  blacklist : List Str
  whitelist : List Str

/-- `domain.lower().strip()` as performed at the top of the membership
checks. -/
def normalizeDomain (d : Str) : Str := pyStrip (strLower d)

/-- The shared body of `is_blacklisted` / `is_whitelisted`: exact match,
then `for i in range(len(parts) - 1): parent = ".".join(parts[i:])`. -/
def suffixHits (members : List Str) (domain : Str) : Bool :=
  let d := normalizeDomain domain
  if members.contains d then true
  else
    let parts := splitDots d
    (List.range (parts.length - 1)).any fun i => members.contains (joinDots (parts.drop i))

/-- `ThreatIntelligenceService.is_blacklisted`. -/
def isBlacklisted (st : IntelState) (domain : Str) : Bool :=
  suffixHits st.blacklist domain

/-- `ThreatIntelligenceService.is_whitelisted`. -/
def isWhitelisted (st : IntelState) (domain : Str) : Bool :=
  suffixHits st.whitelist domain

/-- Result dictionary of `ThreatIntelligenceService.check_domain`. -/
structure DomainCheck where
  domain : Str
  is_blacklisted : Bool
  is_whitelisted : Bool
  threat_level : String

/-- `ThreatIntelligenceService.check_domain`. -/
def check_domain (st : IntelState) (domain : Str) : DomainCheck :=
  let d := normalizeDomain domain
  if isWhitelisted st d then ⟨d, false, true, "safe"⟩
  else if isBlacklisted st d then ⟨d, true, false, "malicious"⟩
  else ⟨d, false, false, "unknown"⟩

/-- The suffix chain named by the specification: every suffix of the
label list, down to and including the bare top-level label. -/
def specSuffixChain (domain : Str) : List Str :=
  let d := normalizeDomain domain
  let parts := splitDots d
  (List.range parts.length).map fun i => joinDots (parts.drop i)

/-- The chain the code actually consults: the normalized domain itself,
plus every suffix that still has at least two labels. -/
def codeSuffixChain (domain : Str) : List Str :=
  let d := normalizeDomain domain
  let parts := splitDots d
  d :: (List.range (parts.length - 1)).map fun i => joinDots (parts.drop i)

/-! ## URL decoding and parsing (models of `urllib.parse.unquote`,
`urllib.parse.urlparse` and the `tldextract` split) -/

/-- ASCII model of `urllib.parse.unquote`: each valid `%XX` escape is
replaced by the character with that code; invalid escapes are kept. -/
def unquote : Str → Str
  | '%' :: a :: b :: rest =>
    if isHexDigit a ∧ isHexDigit b then
      Char.ofNat (hexVal a * 16 + hexVal b) :: unquote rest
    else '%' :: unquote (a :: b :: rest)
  | c :: rest => c :: unquote rest
  | [] => []

/-- Presence of a `%XX` escape (regex `%[0-9a-fA-F]{2}`, `re.search`). -/
def hasHexEscape : Str → Bool
  | '%' :: a :: b :: rest =>
    if isHexDigit a ∧ isHexDigit b then true else hasHexEscape (a :: b :: rest)
  | _ :: rest => hasHexEscape rest
  | [] => false

/-- Number of non-overlapping `%XX` escapes (`re.findall`, counted). -/
def countHexEscapes : Str → Nat
  | '%' :: a :: b :: rest =>
    if isHexDigit a ∧ isHexDigit b then countHexEscapes rest + 1
    else countHexEscapes (a :: b :: rest)
  | _ :: rest => countHexEscapes rest
  | [] => 0

/-- Occurrence of regex `xn--[a-z0-9]+` (`re.search`). -/
def hasPunycode : Str → Bool
  | s@(_ :: rest) =>
    if ("xn--".data).isPrefixOf s &&
       (match s.drop 4 with
        | c :: _ => isAsciiLower c || c.isDigit
        | [] => false) then true
    else hasPunycode rest
  | [] => false

/-- Occurrence of regex `[a-z]\d[a-z]\d` (`re.search`). -/
def hasLetterDigitAlt : Str → Bool
  | a :: b :: c :: d :: rest =>
    if isAsciiLower a ∧ b.isDigit ∧ isAsciiLower c ∧ d.isDigit then true
    else hasLetterDigitAlt (b :: c :: d :: rest)
  | _ => false

/-- The relevant projection of a parsed URL (`urllib.parse.urlparse`). -/
structure ParsedUrl where
  scheme : Str
  netloc : Str
  path : Str
  query : Str

def validScheme : Str → Bool
  | [] => false
  | c :: rest => c.isAlpha ∧ rest.all fun d => d.isAlphanum ∨ d = '+' ∨ d = '-' ∨ d = '.'

/-- Model of `urllib.parse.urlparse` for the projections the extractor
reads: split a leading valid `scheme:`, a `//netloc` up to `/?#`, drop a
`#fragment`, and split `path?query`. -/
def pyUrlparse (u : Str) : ParsedUrl :=
  let schemeRest : Str × Str :=
    match idxOf ':' u with
    | some i => if validScheme (u.take i) then (strLower (u.take i), u.drop (i + 1)) else ([], u)
    | none => ([], u)
  let scheme := schemeRest.1
  let r1 := schemeRest.2
  let netlocRest : Str × Str :=
    if ("//".data).isPrefixOf r1 then
      let nl := (r1.drop 2).takeWhile fun c => ¬(c = '/' ∨ c = '?' ∨ c = '#')
      (nl, (r1.drop 2).drop nl.length)
    else ([], r1)
  let netloc := netlocRest.1
  let r3 := netlocRest.2.takeWhile (· ≠ '#')
  let path := r3.takeWhile (· ≠ '?')
  let query := if r3.length > path.length then r3.drop (path.length + 1) else []
  ⟨scheme, netloc, path, query⟩

/-- Model of the `parsed.port` property: the part of the netloc after the
first `:` following any userinfo; `int(...)` plus the 0..65535 range check
raise `ValueError` on bad input (modelled as `Except.error`). -/
def pyPort (netloc : Str) : Except String (Option Nat) :=
  let hostinfo := if netloc.contains '@' then
      ((netloc.reverse.takeWhile (· ≠ '@')).reverse) else netloc
  match idxOf ':' hostinfo with
  | none => .ok none
  | some i =>
    let p := hostinfo.drop (i + 1)
    if p = [] then .ok none
    else if p.all Char.isDigit then
      let n := natOfDigits p
      if n ≤ 65535 then .ok (some n)
      else .error "ValueError: Port out of range 0-65535"
    else .error "ValueError: invalid literal for int() with base 10"

/-- Dotted-quad IPv4 test, equivalent to the anchored regex
`^((25[0-5]|2[0-4][0-9]|[01]?[0-9][0-9]?)\.){3}(25[0-5]|...)$`. -/
def isIpv4 (s : Str) : Bool :=
  let parts := splitDots s
  parts.length = 4 ∧ parts.all fun p =>
    p ≠ [] ∧ p.length ≤ 3 ∧ p.all Char.isDigit ∧ natOfDigits p ≤ 255

/-- Host part of a URL-ish string, as `tldextract` isolates it: text after
a `scheme://` if present, up to `/?#`, after any userinfo `@`, before any
`:port`, lowercased. -/
def hostOf (u : Str) : Str :=
  let rest := match infixIdx ("://".data) u with
    | some i => u.drop (i + 3)
    | none => u
  let nl := rest.takeWhile fun c => ¬(c = '/' ∨ c = '?' ∨ c = '#')
  let afterAt := if nl.contains '@' then (nl.reverse.takeWhile (· ≠ '@')).reverse else nl
  strLower (afterAt.takeWhile (· ≠ ':'))

structure TldParts where
  subdomain : Str
  domain : Str
  suffix : Str

/-- Modelled from the spec: `tldextract.extract` is an external library
whose public-suffix data is not part of this repository; §4.1 prescribes
"split host into registrable-domain + public-suffix + subdomain ...
treat unknown suffixes conservatively — domain is last two labels", and
`tldextract` returns the whole host as `domain` with empty suffix for an
IP-literal host. -/
def tldExtract (u : Str) : TldParts :=
  let host := hostOf u
  if isIpv4 host then ⟨[], host, []⟩
  else
    let parts := splitDots host
    if h : parts.length ≥ 2 then
      ⟨joinDots (parts.take (parts.length - 2)),
       parts.get ⟨parts.length - 2, by omega⟩,
       parts.getLastD []⟩
    else ⟨[], host, []⟩

/-- `domain = f"{extracted.domain}.{extracted.suffix}" if extracted.suffix
else extracted.domain` (used by both the extractor and the orchestrator). -/
def registeredDomain (u : Str) : Str :=
  let ext := tldExtract u
  if ext.suffix ≠ [] then ext.domain ++ '.' :: ext.suffix else ext.domain

/-! ## Fixed vocabularies of `URLAnalyzer` -/

def SUSPICIOUS_TLDS : List Str :=
  ["tk", "ml", "ga", "cf", "gq", "xyz", "top", "club", "online",
   "site", "website", "space", "pw", "cc", "ws", "info", "biz",
   "click", "link", "work", "date", "download", "racing", "review",
   "country", "stream", "gdn", "mom", "xin", "kim", "men", "loan",
   "win", "party", "science", "webcam", "trade", "accountant", "faith"].map String.data

def SUSPICIOUS_KEYWORDS : List Str :=
  ["login", "signin", "sign-in", "log-in", "account", "verify",
   "verification", "update", "confirm", "secure", "security",
   "banking", "bank", "paypal", "ebay", "amazon", "apple",
   "microsoft", "google", "facebook", "instagram", "netflix",
   "password", "credential", "authenticate", "wallet", "crypto",
   "bitcoin", "suspended", "unusual", "activity", "locked",
   "unlock", "restore", "recover", "urgent", "immediately",
   "expire", "limited", "free", "winner", "prize", "congratulation",
   "alert", "warning", "blocked", "disabled", "validate", "reactivate",
   "billing", "invoice", "payment", "refund", "claim", "reward",
   "notification", "action-required", "required", "helpdesk", "support"].map String.data

def TARGET_BRANDS : List Str :=
  ["google", "facebook", "apple", "microsoft", "amazon", "paypal",
   "netflix", "instagram", "twitter", "linkedin", "chase", "wellsfargo",
   "bankofamerica", "citibank", "usbank", "capitalone", "amex",
   "dropbox", "icloud", "outlook", "hotmail", "yahoo", "gmail",
   "whatsapp", "telegram", "snapchat", "tiktok", "spotify", "uber",
   "coinbase", "binance", "kraken", "blockchain", "venmo", "zelle",
   "steam", "playstation", "xbox", "nintendo", "twitch", "discord",
   "adobe", "salesforce", "oracle", "sap", "docusign", "stripe"].map String.data

def URL_SHORTENERS : List Str :=
  ["bit.ly", "tinyurl.com", "t.co", "goo.gl", "ow.ly", "is.gd",
   "buff.ly", "adf.ly", "bit.do", "mcaf.ee", "su.pr", "tiny.cc",
   "shorte.st", "cutt.ly", "rebrand.ly", "shorturl.at", "v.gd",
   "rb.gy", "qr.ae", "bc.vc", "j.mp", "han.gl", "u.to"].map String.data

/-- `URLAnalyzer.HOMOGRAPH_MAP` (confusable-to-Latin pairs, verbatim). -/
def HOMOGRAPH_MAP : List (Char × Str) :=
  [('а', "a".data), ('е', "e".data), ('о', "o".data), ('р', "p".data),
   ('с', "c".data), ('у', "y".data), ('х', "x".data), ('ѕ', "s".data),
   ('і', "i".data), ('ј', "j".data), ('һ', "h".data), ('ԁ', "d".data),
   ('ո', "n".data), ('ս', "u".data), ('ν', "v".data), ('ω', "w".data),
   ('α', "a".data), ('β', "b".data), ('ε', "e".data), ('η', "n".data),
   ('ι', "i".data), ('κ', "k".data), ('μ', "u".data), ('ρ', "p".data),
   ('τ', "t".data), ('υ', "u".data), ('χ', "x".data), ('ο', "o".data),
   ('ϲ', "c".data), ('ɡ', "g".data), ('ⅰ', "i".data), ('ⅱ', "ii".data),
   ('ⅲ', "iii".data), ('ⅼ', "l".data), ('ⅿ', "m".data)]

/-! ## Feature dictionary (`URLAnalyzer.extract_features`) -/

/-- The feature dictionary.  Default field values are exactly the
`dict.get(key, default)` defaults used by every consumer, so a record in
which only the explicitly-set fields differ from the defaults models the
minimal dictionary returned on a parse failure. -/
structure Features where
  url_length : Nat := 0
  domain_length : Nat := 0
  subdomain_length : Nat := 0
  path_length : Nat := 0
  query_length : Nat := 0
  num_dots : Nat := 0
  num_hyphens : Nat := 0
  num_underscores : Nat := 0
  num_slashes : Nat := 0
  num_at_symbols : Nat := 0
  num_ampersands : Nat := 0
  num_equals : Nat := 0
  num_digits : Nat := 0
  num_special_chars : Nat := 0
  has_ip : Bool := false
  has_https : Bool := false
  has_port : Bool := false
  has_at_symbol : Bool := false
  has_double_slash_redirect : Bool := false
  entropy : ℚ := 0
  digit_ratio : ℚ := 0
  letter_ratio : ℚ := 0
  tld : Str := []
  suspicious_tld : Bool := false
  subdomain_count : Nat := 0
  suspicious_keywords : List Str := []
  num_suspicious_keywords : Nat := 0
  is_shortened : Bool := false
  has_brand_in_subdomain : Bool := false
  excessive_subdomains : Bool := false
  long_domain : Bool := false
  typosquatting_target : Option Str := none
  typosquatting_score : ℚ := 0
  is_typosquatting : Bool := false
  has_homograph : Bool := false
  homograph_chars : List String := []
  has_encoded_chars : Bool := false
  encoded_char_count : Nat := 0
  has_punycode : Bool := false
  has_data_uri : Bool := false
  has_javascript_uri : Bool := false
  has_base64 : Bool := false
  has_redirect_param : Bool := false
  has_login_form_pattern : Bool := false
  has_fake_extension : Bool := false
  consecutive_digits : Nat := 0
  random_looking : Bool := false
  domain_has_brand : Option Str := none
  suspicious_subdomain : Bool := false
  tld_in_subdomain : Bool := false
  domain : Str := []
  subdomain : Str := []
  path : Str := []
  query : Str := []
  err : Option String := none

/-- `URLAnalyzer._calculate_entropy`, with `math.log2` as the oracle `lg`:
`-Σ p(c)·lg(p(c))` over the character frequency distribution, rounded to
4 decimals; 0 for the empty string. -/
def calcEntropy (lg : ℚ → ℚ) (s : Str) : ℚ :=
  if s = [] then 0
  else
    let n : ℚ := s.length
    round4 (-(s.eraseDups.foldl (fun acc c =>
      acc + ((s.count c : ℚ) / n) * lg ((s.count c : ℚ) / n)) 0))

/-- `URLAnalyzer._find_suspicious_keywords`. -/
def findSuspiciousKeywords (url : Str) : List Str :=
  let lower := strLower url
  SUSPICIOUS_KEYWORDS.filter fun kw => isSubstring kw lower

/-- `URLAnalyzer._is_shortened_url`. -/
def isShortenedUrl (domain : Str) : Bool :=
  if domain = [] then false
  else URL_SHORTENERS.any fun sh => isSubstring sh (strLower domain)

/-- `URLAnalyzer._has_brand_in_subdomain`. -/
def hasBrandInSubdomain (subdomain : Str) : Bool :=
  if subdomain = [] then false
  else TARGET_BRANDS.any fun brand => isSubstring brand (strLower subdomain)

/-- `URLAnalyzer._detect_typosquatting`: first brand (in table order) that
passes one of the four similarity checks; note the extractor's
normalization rewrites only `0→o` and `1→l` (the trailing
`replace("1","i")` of the source acts on a string with all `1`s already
replaced). -/
def detectTyposquatting (domain : Str) : Option Str :=
  if domain = [] then none
  else
    let parts := splitDots (strLower domain)
    if parts.length < 2 then none
    else
      let mainDomain := parts.headD []
      TARGET_BRANDS.find? fun brand =>
        if mainDomain = brand then false
        else
          let distance := levenshtein mainDomain brand
          let maxLen := max mainDomain.length brand.length
          if distance ≤ 2 ∧ maxLen ≥ 4 then true
          else
            let normalized :=
              replaceChar '1' 'i' (replaceChar '1' 'l' (replaceChar '0' 'o' mainDomain))
            if normalized = brand ∨ levenshtein normalized brand ≤ 1 then true
            else if isSubstring brand mainDomain ∧ mainDomain.length ≤ brand.length + 3 then true
            else if mainDomain.length = brand.length ∧
                ((mainDomain.zip brand).countP fun p => decide (p.1 ≠ p.2)) ≤ 2 then true
            else false

/-- `URLAnalyzer._get_typosquatting_score`. -/
def typosquattingScore (domain : Str) : ℚ :=
  if domain = [] then 0
  else
    let parts := splitDots (strLower domain)
    if parts.length < 2 then 0
    else
      let mainDomain := parts.headD []
      let best := TARGET_BRANDS.foldl (fun best brand =>
        if mainDomain = brand then best
        else
          let distance := levenshtein mainDomain brand
          let maxLen := max mainDomain.length brand.length
          if maxLen = 0 then best
          else
            let similarity : ℚ := 1 - (distance : ℚ) / (maxLen : ℚ)
            if similarity > 7/10 then
              let score := if mainDomain.length = brand.length
                then min (similarity + 1/10) 1 else similarity
              max best score
            else best) 0
      round4 best

/-- `URLAnalyzer._detect_homograph`. -/
def detectHomograph (url : Str) : Bool :=
  url.any fun c => HOMOGRAPH_MAP.any fun p => p.1 = c

/-- `URLAnalyzer._find_homograph_chars` (entries `f"{char}→{latin}"`). -/
def findHomographChars (url : Str) : List String :=
  url.filterMap fun c =>
    match HOMOGRAPH_MAP.find? fun p => p.1 = c with
    | some p => some (String.mk [c] ++ "→" ++ String.mk p.2)
    | none => none

/-- `URLAnalyzer._has_fake_extension`. -/
def hasFakeExtension (path : Str) : Bool :=
  let pathLower := strLower path
  if (([".php", ".asp", ".aspx", ".jsp", ".cgi", ".pl"].map String.data).any
      fun ext => isSubstring ext pathLower) then true
  else if pathLower.count '.' ≥ 2 then
    let parts := splitDots pathLower
    if parts.length ≥ 3 &&
        (match parts.reverse with
         | _ :: second :: _ => (["exe", "zip", "pdf", "doc"].map String.data).contains second
         | _ => false) then true
    else false
  else false

/-- `URLAnalyzer._is_random_looking`. -/
def isRandomLooking (domain : Str) : Bool :=
  if domain = [] then false
  else
    let mainDomain := (splitDots domain).headD []
    if mainDomain.length < 8 then false
    else
      let lower := strLower mainDomain
      let vCount := lower.countP fun c => ("aeiou".data).contains c
      let cCount := lower.countP fun c => ("bcdfghjklmnpqrstvwxyz".data).contains c
      if cCount > 0 ∧
          ((vCount : ℚ) / (cCount : ℚ) < 15/100 ∨ (vCount : ℚ) / (cCount : ℚ) > 3/2) then
        true
      else if (mainDomain.eraseDups.length : ℚ) < (mainDomain.length : ℚ) / 3 then true
      else false

/-- `URLAnalyzer._domain_contains_brand`. -/
def domainContainsBrand (domain : Str) : Option Str :=
  if domain = [] then none
  else
    let lower := strLower domain
    let mainDomain := (splitDots lower).headD []
    TARGET_BRANDS.find? fun brand =>
      isSubstring brand lower ∧ isSubstring brand mainDomain ∧ mainDomain ≠ brand

/-- `URLAnalyzer._is_suspicious_subdomain`. -/
def isSuspiciousSubdomain (subdomain : Str) : Bool :=
  if subdomain = [] then false
  else
    let lower := strLower subdomain
    if (["secure", "login", "signin", "verify", "account", "update",
         "confirm", "banking", "support", "help", "service", "client",
         "user", "member", "portal", "auth", "sso", "id", "identity"].map String.data).any
        (fun pat => isSubstring pat lower) then true
    else TARGET_BRANDS.any fun brand => isSubstring brand lower

/-- `URLAnalyzer._has_tld_in_subdomain`. -/
def hasTldInSubdomain (subdomain : Str) : Bool :=
  if subdomain = [] then false
  else
    let lower := strLower subdomain
    (["com", "org", "net", "co", "io", "me", "us", "uk", "edu", "gov"].map String.data).any
      fun tld =>
        isSubstring ('.' :: tld ++ ['.']) ('.' :: lower ++ ['.']) ∨
        ('.' :: tld).isSuffixOf lower

/-- The `try` body of `extract_features`; the only genuinely fallible step
is the `parsed.port` access, which raises `ValueError` on a malformed or
out-of-range port. -/
def extractBody (lg : ℚ → ℚ) (url : String) : Except String Features := do
  let raw : Str := url.data
  let decoded := unquote raw
  let parsed := pyUrlparse
    (if ("http".data).isPrefixOf decoded then decoded else "http://".data ++ decoded)
  let ext := tldExtract decoded
  let domain := if ext.suffix ≠ [] then ext.domain ++ '.' :: ext.suffix else ext.domain
  let subdomain := ext.subdomain
  let port ← pyPort parsed.netloc
  let kws := findSuspiciousKeywords decoded
  pure {
    url_length := decoded.length
    domain_length := domain.length
    subdomain_length := subdomain.length
    path_length := parsed.path.length
    query_length := parsed.query.length
    num_dots := decoded.count '.'
    num_hyphens := decoded.count '-'
    num_underscores := decoded.count '_'
    num_slashes := decoded.count '/'
    num_at_symbols := decoded.count '@'
    num_ampersands := decoded.count '&'
    num_equals := decoded.count '='
    num_digits := decoded.countP Char.isDigit
    num_special_chars := decoded.countP fun c =>
      !c.isAlphanum && !(['.', '/', '-', '_'].contains c)
    has_ip := isIpv4 domain
    has_https := parsed.scheme = "https".data
    has_port := match port with | some n => n ≠ 0 | none => false
    has_at_symbol := decoded.contains '@'
    has_double_slash_redirect := isSubstring ("//".data) parsed.path
    entropy := calcEntropy lg decoded
    digit_ratio := (decoded.countP Char.isDigit : ℚ) / (max decoded.length 1 : ℚ)
    letter_ratio := (decoded.countP Char.isAlpha : ℚ) / (max decoded.length 1 : ℚ)
    tld := ext.suffix
    suspicious_tld := SUSPICIOUS_TLDS.contains (strLower ext.suffix)
    subdomain_count := if subdomain ≠ [] then (splitDots subdomain).length else 0
    suspicious_keywords := kws
    num_suspicious_keywords := (findSuspiciousKeywords decoded).length
    is_shortened := isShortenedUrl domain
    has_brand_in_subdomain := hasBrandInSubdomain subdomain
    excessive_subdomains := if subdomain ≠ [] then (splitDots subdomain).length > 3 else false
    long_domain := if domain ≠ [] then domain.length > 25 else false
    typosquatting_target := detectTyposquatting domain
    typosquatting_score := typosquattingScore domain
    is_typosquatting := typosquattingScore domain > 7/10
    has_homograph := detectHomograph decoded
    homograph_chars := findHomographChars decoded
    has_encoded_chars := hasHexEscape decoded
    encoded_char_count := countHexEscapes raw
    has_punycode := hasPunycode domain
    has_data_uri := ("data:".data).isPrefixOf (strLower decoded)
    has_javascript_uri := isSubstring ("javascript:".data) (strLower decoded)
    has_base64 := maxRun (fun c => c.isAlphanum || c = '+' || c = '/') decoded ≥ 20
    has_redirect_param := (["redirect=", "url=", "next=", "goto=", "return="].map String.data).any
      fun p => isSubstring p (strLower decoded)
    has_login_form_pattern := (["/login", "/signin", "/auth", "/verify", "/secure"].map String.data).any
      fun p => isSubstring p (strLower decoded)
    has_fake_extension := hasFakeExtension parsed.path
    consecutive_digits := maxRun Char.isDigit decoded
    random_looking := isRandomLooking domain
    domain_has_brand := domainContainsBrand domain
    suspicious_subdomain := isSuspiciousSubdomain subdomain
    tld_in_subdomain := hasTldInSubdomain subdomain
    domain := domain
    subdomain := subdomain
    path := parsed.path
    query := parsed.query
    err := none }

/-- The minimal feature dictionary built by the `except` handler: only
these keys are present; all other fields carry the consumers' `.get`
defaults (see `Features`). -/
def minimalFeatures (lg : ℚ → ℚ) (url : String) (e : String) : Features :=
  { url_length := url.length
    domain_length := 0
    err := some e
    has_https := ("https".data).isPrefixOf url.data
    entropy := calcEntropy lg url.data
    suspicious_keywords := []
    num_suspicious_keywords := 0 }

/-- `URLAnalyzer.extract_features`: total; falls back to the minimal
feature dictionary on any failure of the parse body. -/
def extract_features (lg : ℚ → ℚ) (url : String) : Features :=
  match extractBody lg url with
  | .ok f => f
  | .error e => minimalFeatures lg url e

/-! ## Rule engine (`rule_engine.py`) -/

/-- `KNOWN_LEGITIMATE_DOMAINS` (module-level set, verbatim). -/
def KNOWN_LEGITIMATE_DOMAINS : List Str :=
  ["google.com", "www.google.com", "mail.google.com", "drive.google.com", "docs.google.com",
   "amazon.com", "www.amazon.com", "aws.amazon.com",
   "microsoft.com", "www.microsoft.com", "login.microsoftonline.com", "outlook.live.com",
   "apple.com", "www.apple.com", "icloud.com",
   "facebook.com", "www.facebook.com", "m.facebook.com",
   "twitter.com", "www.twitter.com", "x.com",
   "linkedin.com", "www.linkedin.com",
   "github.com", "www.github.com",
   "netflix.com", "www.netflix.com",
   "youtube.com", "www.youtube.com",
   "instagram.com", "www.instagram.com",
   "paypal.com", "www.paypal.com",
   "ebay.com", "www.ebay.com",
   "chase.com", "www.chase.com", "secure.chase.com",
   "bankofamerica.com", "www.bankofamerica.com",
   "wellsfargo.com", "www.wellsfargo.com",
   "reddit.com", "www.reddit.com",
   "wikipedia.org", "www.wikipedia.org", "en.wikipedia.org",
   "stackoverflow.com", "www.stackoverflow.com",
   "dropbox.com", "www.dropbox.com",
   "spotify.com", "www.spotify.com",
   "zoom.us", "www.zoom.us",
   "slack.com", "www.slack.com",
   "notion.so", "www.notion.so",
   "figma.com", "www.figma.com",
   "portal.azure.com", "cloud.google.com",
   "outlook.com", "office.com", "office365.com",
   "yahoo.com", "mail.yahoo.com",
   "cnn.com", "www.cnn.com",
   "bbc.com", "www.bbc.com", "bbc.co.uk",
   "nytimes.com", "www.nytimes.com",
   "walmart.com", "www.walmart.com",
   "target.com", "www.target.com",
   "bestbuy.com", "www.bestbuy.com",
   "etsy.com", "www.etsy.com",
   "venmo.com", "www.venmo.com",
   "stripe.com", "www.stripe.com",
   "twitch.tv", "www.twitch.tv",
   "discord.com", "www.discord.com",
   "steam.com", "store.steampowered.com", "steampowered.com",
   "coinbase.com", "www.coinbase.com",
   "binance.com", "www.binance.com"].map String.data

/-- `is_known_legitimate_domain(url, features)` (the `try` body cannot
fail; the `except` arm is dead). -/
def is_known_legitimate_domain (_url : Str) (f : Features) : Bool :=
  let domain := strLower f.domain
  let subdomain := strLower f.subdomain
  let fullDomain := if subdomain ≠ [] then subdomain ++ '.' :: domain else domain
  if KNOWN_LEGITIMATE_DOMAINS.contains domain then true
  else if KNOWN_LEGITIMATE_DOMAINS.contains fullDomain then true
  else if ("www.".data).isPrefixOf domain then
    KNOWN_LEGITIMATE_DOMAINS.contains (domain.drop 4)
  else false

/-- One catalog entry: `PhishingRule` subclass instance. `check` returns
`(matched, score, reason)`. -/
structure Rule where
  name : String
  weight : ℚ
  severity : Severity
  check : Str → Features → Bool × ℚ × String

/-- An entry appended to `matched_rules` (the blacklist short-circuit of
the orchestrator builds a dict that carries only `name` and `severity`,
hence `score` and `reason` are optional). -/
structure RuleMatch where
  name : String
  score : Option ℚ
  severity : Severity
  reason : Option String
deriving DecidableEq

/-- `TyposquattingRule.brands` (brand → known typosquatting variants). -/
def TYPO_BRANDS : List (Str × List Str) :=
  [("paypal", ["paypa1", "paypa|", "paypai", "paypol", "paypaI", "paypaal", "paypall", "peypal", "payp4l", "p4ypal", "paaypal"]),
   ("amazon", ["amaz0n", "amazom", "arnazon", "amazn", "amazonn", "amzon", "amazone", "anazon", "amazan"]),
   ("google", ["g00gle", "googIe", "gooogle", "googel", "go0gle", "googl3", "googe", "goog1e", "googie"]),
   ("facebook", ["faceb00k", "facebok", "faceboook", "facebookk", "faceb0ok", "faccebook", "faceebook", "facbook"]),
   ("microsoft", ["micros0ft", "mircosoft", "microsft", "microsooft", "microsof", "micr0soft", "mlcrosoft", "rnicrosoft"]),
   ("apple", ["app1e", "appIe", "applle", "aple", "aplle", "appel", "appl3"]),
   ("netflix", ["netf1ix", "netfIix", "netfilx", "netflex", "nettflix", "netfl1x", "n3tflix"]),
   ("instagram", ["1nstagram", "instagran", "instagramm", "instagarm", "lnstagram", "instgram", "instagrarn"]),
   ("twitter", ["tw1tter", "twiter", "twitterr", "twltter", "tvvitter", "twitt3r"]),
   ("linkedin", ["linkedln", "linkdin", "linkedinn", "1inkedin", "linkediln", "linkediin"]),
   ("dropbox", ["dr0pbox", "dropb0x", "drophox", "droppbox", "dropboxx"]),
   ("chase", ["chas3", "chasse", "chaze", "chasee"]),
   ("wellsfargo", ["we11sfargo", "wellsfarg0", "wellsfargoo", "welsfargo", "wellsfarqo"]),
   ("bankofamerica", ["bankofamer1ca", "bankofamerlca", "bankofamericaa"]),
   ("citibank", ["c1tibank", "citlbank", "citibanck", "citibannk"]),
   ("usbank", ["usbannk", "usbanck", "u5bank"]),
   ("steam", ["stearn", "steaam", "stean", "st3am"]),
   ("ebay", ["ebey", "3bay", "ebayy", "ebaay"]),
   ("walmart", ["wa1mart", "walmrat", "wallmart", "waimart"]),
   ("target", ["targ3t", "targett", "tarqet"]),
   ("bestbuy", ["bestbuuy", "b3stbuy", "besttbuy"]),
   ("office365", ["0ffice365", "office356", "offlce365"]),
   ("outlook", ["0utlook", "outlo0k", "outlookk", "outIook"]),
   ("yahoo", ["yah00", "yahooo", "yaho0", "yehoo"]),
   ("dhl", ["dh1", "dhll", "dhi"]),
   ("fedex", ["f3dex", "fedx", "fedxe", "fed3x"]),
   ("ups", ["upss", "u9s", "uups"]),
   ("usps", ["uspss", "u5ps", "ussp"])].map
    fun p => (p.1.data, p.2.map String.data)

/-- `TyposquattingRule._normalize_domain`: lowercase, then the sequential
rewrites `0→o, 1→l, |→l, 3→e, 4→a, 5→s, rn→m, vv→w`. -/
def normalizeTypo (s : Str) : Str :=
  replacePair 'v' 'v' 'w'
    (replacePair 'r' 'n' 'm'
      (replaceChar '5' 's'
        (replaceChar '4' 'a'
          (replaceChar '3' 'e'
            (replaceChar '|' 'l'
              (replaceChar '1' 'l'
                (replaceChar '0' 'o' (strLower s))))))))

def TYPO_PATTERN_BRANDS : List Str :=
  ["paypal", "amazon", "google", "facebook", "microsoft", "apple",
   "netflix", "instagram", "twitter", "linkedin"].map String.data

def TYPO_PATTERN_WORDS : List Str :=
  ["secure", "login", "verify", "update", "account", "support",
   "help", "service"].map String.data

/-- The regex `(brand1|...)[-.]?(word1|...)` of `TyposquattingRule.check`:
some brand, optionally a `-` or `.`, then some keyword (and the mirrored
second pattern). -/
def typoPatternHit (first second : List Str) (full : Str) : Bool :=
  first.any fun a => second.any fun b =>
    ([[], ['-'], ['.']] : List Str).any fun sep => isSubstring (a ++ sep ++ b) full

/-- `TyposquattingRule` (severity critical, weight 0.95). -/
def typosquattingRule : Rule where
  name := "Typosquatting Attack"
  weight := 95/100
  severity := .critical
  check := fun _url f =>
    let w : ℚ := 95/100
    let domain := strLower f.domain
    let subdomain := strLower f.subdomain
    let fullDomain := if subdomain ≠ [] then subdomain ++ '.' :: domain else domain
    match TYPO_BRANDS.findSome? fun bv =>
        (bv.2.find? fun variant => isSubstring variant fullDomain).map fun v => (bv.1, v) with
    | some bv =>
      (true, w, "Typosquatting detected: " ++ bv.2.asString ++ " mimics " ++ bv.1.asString)
    | none =>
      let normalized := normalizeTypo fullDomain
      -- (the source's trailing `if brand in full_domain.replace(...): continue`
      -- is a no-op and is omitted)
      match TYPO_BRANDS.findSome? fun bv =>
          if isSubstring bv.1 normalized ∧ ¬ isSubstring bv.1 fullDomain
          then some bv.1 else none with
      | some b =>
        (true, w, "Typosquatting detected: domain normalizes to contain " ++ b.asString)
      | none =>
        -- the reason text of the source interpolates `match.group()`; the
        -- matched fragment is not reproduced here
        if typoPatternHit TYPO_PATTERN_BRANDS TYPO_PATTERN_WORDS fullDomain then
          (true, w * (8/10), "Suspicious brand + keyword combination in domain")
        else if typoPatternHit TYPO_PATTERN_WORDS TYPO_PATTERN_BRANDS fullDomain then
          (true, w * (8/10), "Suspicious brand + keyword combination in domain")
        else (false, 0, "")

/-- `HomographAttackRule.homograph_chars` (its own table, distinct from
the analyzer's). -/
def RULE_HOMOGRAPH : List (Char × Str) :=
  [('а', "a".data), ('е', "e".data), ('о', "o".data), ('р', "p".data),
   ('с', "c".data), ('у', "y".data), ('х', "x".data), ('ѕ', "s".data),
   ('і', "i".data), ('ј', "j".data), ('ԁ', "d".data), ('ɡ', "g".data),
   ('ɑ', "a".data), ('ο', "o".data), ('ν', "v".data), ('ω', "w".data),
   ('τ', "t".data)]

/-- `HomographAttackRule` (severity critical, weight 0.9). -/
def homographAttackRule : Rule where
  name := "Potential Homograph Attack"
  weight := 9/10
  severity := .critical
  check := fun _url f =>
    match f.domain.find? fun c => RULE_HOMOGRAPH.any fun p => p.1 = c with
    | some c =>
      let latin := ((RULE_HOMOGRAPH.find? fun p => p.1 = c).map Prod.snd).getD []
      (true, 9/10, "Potential homograph attack: " ++ String.mk [c] ++
        " looks like " ++ latin.asString)
    | none => (false, 0, "")

def MIMICRY_BRANDS : List Str :=
  ["paypal", "amazon", "google", "facebook", "microsoft", "apple",
   "netflix", "instagram", "twitter", "linkedin", "dropbox", "chase",
   "wellsfargo", "bankofamerica", "citibank", "steam", "ebay",
   "walmart", "target", "bestbuy", "outlook", "yahoo", "dhl",
   "fedex", "ups", "usps", "coinbase", "binance", "venmo", "zelle"].map String.data

def MIMICRY_SUFFIXES : List Str :=
  ["-secure", "-login", "-verify", "-update", "-account", "-support",
   "-help", "-service", "-team", "-alert", "-confirm", "-auth",
   "-billing", "-payment", "-recovery", "-unlock", "-suspended"].map String.data

/-- `BrandMimicryRule` (severity critical, weight 0.85). -/
def brandMimicryRule : Rule where
  name := "Brand Mimicry"
  weight := 85/100
  severity := .critical
  check := fun _url f =>
    let w : ℚ := 85/100
    let domain := strLower f.domain
    let subdomain := strLower f.subdomain
    let fullDomain := if subdomain ≠ [] then subdomain ++ '.' :: domain else domain
    match MIMICRY_BRANDS.findSome? fun brand =>
        if isSubstring brand fullDomain then
          match MIMICRY_SUFFIXES.find? fun suffix =>
              isSubstring (brand ++ suffix) fullDomain ∨
              isSubstring (lstripChar '-' suffix ++ '-' :: brand) fullDomain with
          | some _ =>
            some ("Brand mimicry: " ++ brand.asString ++ " combined with suspicious suffix")
          | none =>
            if isSubstring brand subdomain ∧ ¬ isSubstring brand domain then
              some ("Brand " ++ brand.asString ++ " in subdomain pointing to different domain")
            else none
        else none with
    | some reason => (true, w, reason)
    | none => (false, 0, "")

/-- `DataURIRule` (severity critical, weight 0.9). -/
def dataURIRule : Rule where
  name := "Data URI Scheme"
  weight := 9/10
  severity := .critical
  check := fun url _f =>
    let urlLower := strLower url
    if ("data:".data).isPrefixOf urlLower ∨ isSubstring ("data:text/html".data) urlLower then
      (true, 9/10, "Data URI scheme can hide malicious content")
    else (false, 0, "")

/-- `IPAddressRule` (severity high, weight 0.8). -/
def ipAddressRule : Rule where
  name := "IP Address in URL"
  weight := 8/10
  severity := .high
  check := fun _url f =>
    if f.has_ip then (true, 8/10, "URL contains IP address instead of domain")
    else (false, 0, "")

/-- `AtSymbolRule` (severity high, weight 0.7). -/
def atSymbolRule : Rule where
  name := "At Symbol in URL"
  weight := 7/10
  severity := .high
  check := fun _url f =>
    if f.has_at_symbol then
      (true, 7/10, "URL contains @ symbol which may hide real destination")
    else (false, 0, "")

/-- `BrandInSubdomainRule` (severity high, weight 0.8). -/
def brandInSubdomainRule : Rule where
  name := "Brand in Subdomain"
  weight := 8/10
  severity := .high
  check := fun _url f =>
    if f.has_brand_in_subdomain then
      (true, 8/10, "Brand name detected in subdomain: " ++ f.subdomain.asString)
    else (false, 0, "")

def SENSITIVE_KEYWORDS_HTTPS : List Str :=
  ["login", "signin", "password", "account", "banking", "payment",
   "verify", "secure", "credential", "authenticate", "wallet", "crypto"].map String.data

/-- `MissingHTTPSWithSensitiveKeywordsRule` (severity high, weight 0.7). -/
def missingHttpsSensitiveRule : Rule where
  name := "Missing HTTPS on Sensitive Page"
  weight := 7/10
  severity := .high
  check := fun _url f =>
    if ¬ f.has_https then
      let sensitiveFound := f.suspicious_keywords.filter
        fun k => SENSITIVE_KEYWORDS_HTTPS.contains k
      if sensitiveFound ≠ [] then
        (true, 7/10, "Sensitive page without HTTPS: contains " ++
          (joinComma (sensitiveFound.take 3)).asString)
      else (false, 0, "")
    else (false, 0, "")

/-- `SuspiciousTLDRule` (severity medium, weight 0.4). -/
def suspiciousTLDRule : Rule where
  name := "Suspicious TLD"
  weight := 4/10
  severity := .medium
  check := fun _url f =>
    if f.suspicious_tld then
      (true, 4/10, "Suspicious TLD detected: ." ++ f.tld.asString)
    else (false, 0, "")

def HIGH_RISK_KEYWORDS : List Str :=
  ["verify", "suspend", "confirm", "unlock", "unusual", "limited"].map String.data

/-- `SuspiciousKeywordsRule` (severity medium, weight 0.4). -/
def suspiciousKeywordsRule : Rule where
  name := "Suspicious Keywords"
  weight := 4/10
  severity := .medium
  check := fun _url f =>
    let w : ℚ := 4/10
    let keywords := f.suspicious_keywords
    let highRiskFound := keywords.filter fun k => HIGH_RISK_KEYWORDS.contains k
    if highRiskFound.length ≥ 2 then
      (true, w, "Multiple high-risk keywords found: " ++ (joinComma (highRiskFound.take 5)).asString)
    else if keywords.length ≥ 3 then
      (true, w * (7/10), "Multiple suspicious keywords found: " ++ (joinComma (keywords.take 5)).asString)
    else if highRiskFound.length = 1 then
      (true, w * (5/10), "High-risk keyword found: " ++ (highRiskFound.headD []).asString)
    else (false, 0, "")

/-- `ExcessiveSubdomainsRule` (severity medium, weight 0.5). -/
def excessiveSubdomainsRule : Rule where
  name := "Excessive Subdomains"
  weight := 5/10
  severity := .medium
  check := fun _url f =>
    if f.excessive_subdomains then
      (true, 5/10, "Excessive subdomains detected (" ++ toString f.subdomain_count ++ ")")
    else (false, 0, "")

/-- `HighEntropyRule` (severity medium, weight 0.35). -/
def highEntropyRule : Rule where
  name := "High Entropy URL"
  weight := 35/100
  severity := .medium
  check := fun _url f =>
    let w : ℚ := 35/100
    if f.entropy > 48/10 ∧ f.url_length < 80 then
      (true, w, "High entropy (" ++ formatQ2 f.entropy ++ ") suggests random/obfuscated URL")
    else if f.entropy > 52/10 then
      (true, w * (8/10), "Very high entropy (" ++ formatQ2 f.entropy ++ ") in URL")
    else (false, 0, "")

/-- `DoubleSlashRedirectRule` (severity medium, weight 0.6). -/
def doubleSlashRedirectRule : Rule where
  name := "Double Slash Redirect"
  weight := 6/10
  severity := .medium
  check := fun _url f =>
    if f.has_double_slash_redirect then
      (true, 6/10, "Double slash in path may indicate redirect")
    else (false, 0, "")

/-- `RandomStringDomainRule` (severity medium, weight 0.6); the three
regexes are 4+ consonants in a row, 3+ digits in a row, and the pattern
`[a-z]\d[a-z]\d`. -/
def randomStringDomainRule : Rule where
  name := "Random String Domain"
  weight := 6/10
  severity := .medium
  check := fun _url f =>
    let w : ℚ := 6/10
    let domain := (splitDots (strLower f.domain)).headD []
    if domain.length < 5 then (false, 0, "")
    else if maxRun (fun c => ("bcdfghjklmnpqrstvwxz".data).contains c) domain ≥ 4 ∨
        maxRun Char.isDigit domain ≥ 3 ∨ hasLetterDigitAlt domain then
      (true, w, "Domain " ++ domain.asString ++ " appears randomly generated")
    else if f.entropy > 45/10 ∧ domain.length > 10 then
      (true, w * (8/10), "High entropy domain suggests random generation")
    else (false, 0, "")

def SUSPICIOUS_PATHS : List Str :=
  ["/.well-known/", "/wp-admin/", "/wp-includes/", "/login.php",
   "/signin.php", "/verify.html", "/account.html", "/secure/",
   "/auth/", "/validation/", "/confirmation/"].map String.data

/-- `SuspiciousPathPatternRule` (severity medium, weight 0.5); every
path regex of the source is a literal string. -/
def suspiciousPathPatternRule : Rule where
  name := "Suspicious Path Pattern"
  weight := 5/10
  severity := .medium
  check := fun _url f =>
    let w : ℚ := 5/10
    let path := strLower f.path
    if SUSPICIOUS_PATHS.any fun pat => isSubstring pat path then
      (true, w, "Suspicious path pattern detected")
    else if path.contains '%' ∧ path.count '%' > 3 then
      (true, w * (7/10), "Multiple encoded characters in path (" ++ toString (path.count '%') ++ ")")
    else (false, 0, "")

/-- `MultipleHyphensRule` (severity medium, weight 0.4). -/
def multipleHyphensRule : Rule where
  name := "Multiple Hyphens in Domain"
  weight := 4/10
  severity := .medium
  check := fun _url f =>
    let w : ℚ := 4/10
    let mainDomain := if f.domain ≠ [] then (splitDots f.domain).headD [] else []
    let hyphenCount := mainDomain.count '-'
    if hyphenCount ≥ 4 then
      (true, w, "Excessive hyphens in domain (" ++ toString hyphenCount ++ ")")
    else if hyphenCount = 3 then
      (true, w * (6/10), "Multiple hyphens in domain may indicate phishing")
    else (false, 0, "")

/-- `LongURLRule` (severity low, weight 0.2, threshold 150). -/
def longURLRule : Rule where
  name := "Abnormally Long URL"
  weight := 2/10
  severity := .low
  check := fun _url f =>
    let w : ℚ := 2/10
    if f.url_length > 150 ∧ (f.suspicious_tld ∨ f.has_ip) then
      (true, w, "URL length (" ++ toString f.url_length ++ ") exceeds threshold with suspicious indicators")
    else if f.url_length > 200 then
      (true, w, "Very long URL (" ++ toString f.url_length ++ " chars)")
    else (false, 0, "")

/-- `URLShortenerRule` (severity low, weight 0.3). -/
def urlShortenerRule : Rule where
  name := "URL Shortener"
  weight := 3/10
  severity := .low
  check := fun _url f =>
    if f.is_shortened then (true, 3/10, "URL uses shortening service")
    else (false, 0, "")

def SENSITIVE_KEYWORDS_NOHTTPS : List Str :=
  ["login", "signin", "password", "account", "banking", "payment"].map String.data

/-- `NoHTTPSRule` (severity low, weight 0.3). -/
def noHTTPSRule : Rule where
  name := "Missing HTTPS"
  weight := 3/10
  severity := .low
  check := fun _url f =>
    if ¬ f.has_https ∧ f.suspicious_keywords.any (fun k => SENSITIVE_KEYWORDS_NOHTTPS.contains k) then
      (true, 3/10, "Sensitive page without HTTPS encryption")
    else (false, 0, "")

/-- `RuleEngine.__init__`: the rule catalog, in source order. -/
def ruleCatalog : List Rule :=
  [typosquattingRule, homographAttackRule, brandMimicryRule, dataURIRule,
   ipAddressRule, atSymbolRule, brandInSubdomainRule, missingHttpsSensitiveRule,
   suspiciousTLDRule, suspiciousKeywordsRule, excessiveSubdomainsRule,
   highEntropyRule, doubleSlashRedirectRule, randomStringDomainRule,
   suspiciousPathPatternRule, multipleHyphensRule,
   longURLRule, urlShortenerRule, noHTTPSRule]

/-- `always_run_rules`. -/
def alwaysRunRules : List String := ["Data URI Scheme", "Potential Homograph Attack"]

/-- One iteration of the `for rule in self.rules` loop: skip when on the
legitimate-domain fast path, otherwise run the check and record a match. -/
def ruleOutcome (url : Str) (f : Features) (isLegit : Bool) (r : Rule) : Option RuleMatch :=
  if isLegit ∧ ¬ alwaysRunRules.contains r.name then none
  else
    let out := r.check url f
    if out.1 then some ⟨r.name, some out.2.1, r.severity, some out.2.2⟩ else none

/-- One update of the loop's `max_severity` tracking. -/
def sevStep (acc : Severity) (r : RuleMatch) : Severity :=
  if sevIndex acc < sevIndex r.severity then r.severity else acc

/-- Running maximum of matched severities (the loop's `max_severity`,
starting from `"info"`). -/
def maxSeverity (matched : List RuleMatch) : Severity :=
  matched.foldl sevStep .info

/-- Number of matched rules of severity `s`. -/
def countSev (matched : List RuleMatch) (s : Severity) : Nat :=
  (matched.filter fun r => r.severity = s).length

/-- `len(set(r["severity"] for r in matched_rules))`: since severities
range over the five-value enum, the distinct count is the number of
severities present. -/
def distinctSevCount (matched : List RuleMatch) : Nat :=
  (allSeverities.filter fun s => matched.any fun r => r.severity = s).length

/-- The tiered aggregation of `RuleEngine.analyze` (the `else` arm for a
non-empty match list): base score by the dominant tier, a per-tier
increment per additional rule of that tier, a cap at the next tier's
base, and a flat `+0.1` bonus when at least two distinct severities
matched (capped at 1.0). -/
def aggregate (matched : List RuleMatch) : ℚ :=
  let maxSev := maxSeverity matched
  let t :=
    if maxSev = .critical then
      min ((85/100) + ((countSev matched .critical : ℚ) - 1) * (5/100)) 1
    else if maxSev = .high then
      min ((6/10) + ((countSev matched .high : ℚ) - 1) * (1/10)) (85/100)
    else if maxSev = .medium then
      min ((3/10) + ((countSev matched .medium : ℚ) - 1) * (1/10)) (6/10)
    else
      min ((1/10) + ((matched.length : ℚ) - 1) * (5/100)) (3/10)
  if distinctSevCount matched ≥ 2 then min (t + 1/10) 1 else t

/-- `normalized_score` of `RuleEngine.analyze`. -/
def ruleScoreRaw (matched : List RuleMatch) : ℚ :=
  if matched.isEmpty then 0 else aggregate matched

/-- Result dictionary of `RuleEngine.analyze`. -/
structure RuleResult where
  matched_rules : List RuleMatch
  rule_score : ℚ
  rules_matched_count : Nat
  severity : Severity
  total_rules_checked : Nat
  is_known_legitimate : Bool
deriving DecidableEq

/-- `RuleEngine.analyze` (the loop also accumulates a `total_score`
that the source never uses afterwards; it is not modelled). -/
def ruleAnalyze (url : Str) (f : Features) : RuleResult :=
  let isLegit := is_known_legitimate_domain url f
  let matched := ruleCatalog.filterMap (ruleOutcome url f isLegit)
  { matched_rules := matched
    rule_score := round4 (ruleScoreRaw matched)
    rules_matched_count := matched.length
    severity := if matched.isEmpty then .info else maxSeverity matched
    total_rules_checked := ruleCatalog.length
    is_known_legitimate := isLegit }

/-! ## Orchestrator (`phishing_detector.py`) -/

/-- The slice of `ml_detector.predict`'s result dictionary read by the
orchestrator. -/
structure MLResult where
  ml_score : ℚ
deriving DecidableEq

/-- The slice of `bert_detector.predict`'s result dictionary read by the
orchestrator. -/
structure BertResult where
  combined_score : ℚ
deriving DecidableEq

/-- The two opaque scorers (trained RandomForest artifact; pattern/BERT
semantic model, which may consult the network on its typosquatting
path), plus the `math.log2` oracle of the feature extractor; injected
into the orchestrator. -/
structure Detectors where
  mlPredict : String → MLResult
  bertPredict : String → BertResult
  lg : ℚ → ℚ

/-- Hybrid ensemble weights of `PhishingDetector.__init__`. -/
def bert_weight : ℚ := 35/100
def ml_weight : ℚ := 25/100
def rule_weight : ℚ := 40/100

/-- The result dictionary of `PhishingDetector._create_result` (the
whitelist branch passes the literal `{}` and `[]`, modelled by `none` /
`[]`; `scanned_at` is the `datetime.utcnow().isoformat()` reading,
passed in as `now`). -/
structure ScanResult where
  url : String
  domain : Str
  is_phishing : Bool
  confidence_score : ℚ
  ml_score : ℚ
  rule_score : ℚ
  severity : Severity
  status : String
  features : Option Features
  matched_rules : List RuleMatch
  verdict : String
  reason : String
  ml_details : Option MLResult
  rule_details : Option RuleResult
  scanned_at : String

/-- `PhishingDetector._create_result`. -/
def create_result (url : String) (domain : Str) (is_phishing : Bool)
    (confidence_score ml_score rule_score : ℚ) (severity : Severity) (status : String)
    (features : Option Features) (matched_rules : List RuleMatch)
    (verdict reason : String) (ml_details : Option MLResult)
    (rule_details : Option RuleResult) (now : String) : ScanResult :=
  { url := url
    domain := domain
    is_phishing := is_phishing
    confidence_score := round4 confidence_score
    ml_score := round4 ml_score
    rule_score := round4 rule_score
    severity := severity
    status := status
    features := features
    matched_rules := matched_rules
    verdict := verdict
    reason := reason
    ml_details := ml_details
    rule_details := rule_details
    scanned_at := now }

/-- `PhishingDetector.analyze_url` with `db=None`.  The blacklist branch
of the source calls `_create_result(..., bert_score=1.0, ...)`, but
`_create_result` accepts no `bert_score` parameter, so that call raises
`TypeError` (modelled as `Except.error`).  The preceding
`get_feature_vector` call's numeric vector is discarded by the source;
only the feature dictionary is used. -/
def analyze_url (D : Detectors) (intel : IntelState) (url : String) (now : String) :
    Except String ScanResult :=
  let domain := registeredDomain url.data
  let intelResult := check_domain intel domain
  if intelResult.is_whitelisted then
    .ok (create_result url domain false 0 0 0 .info "active" none []
      "safe" "Domain is whitelisted" none none now)
  else if intelResult.is_blacklisted then
    .error "TypeError: _create_result() got an unexpected keyword argument bert_score"
  else
    let features := extract_features D.lg url
    let mlResult := D.mlPredict url
    let bertResult := D.bertPredict url
    let ruleResult := ruleAnalyze url.data features
    let combined := bertResult.combined_score * bert_weight +
      mlResult.ml_score * ml_weight + ruleResult.rule_score * rule_weight
    let criticalRules := ruleResult.matched_rules.filter fun r => r.severity = .critical
    let highRules := ruleResult.matched_rules.filter fun r => r.severity = .high
    let scorePhish : ℚ × Bool :=
      if criticalRules ≠ [] then (max combined (85/100), true)
      else if highRules ≠ [] ∧ highRules.length ≥ 2 then (max combined (65/100), true)
      else if highRules ≠ [] then
        (max combined (55/100), max combined (55/100) ≥ 45/100)
      else (combined, combined ≥ 45/100)
    let combinedScore := scorePhish.1
    let isPhishing := scorePhish.2
    let severity : Severity :=
      if combinedScore ≥ 8/10 then .critical
      else if combinedScore ≥ 6/10 then .high
      else if combinedScore ≥ 4/10 then .medium
      else if combinedScore ≥ 2/10 then .low
      else .info
    let status := if isPhishing then "blocked" else "active"
    let verdict :=
      if isPhishing then "malicious"
      else if combinedScore < 2/10 then "safe" else "suspicious"
    let reason :=
      if isPhishing then
        (if combinedScore ≥ 8/10 then "High confidence phishing detection"
         else "Potential phishing detected")
      else if verdict = "safe" then "No significant threats detected"
      else "Some suspicious indicators found"
    .ok (create_result url domain isPhishing combinedScore mlResult.ml_score
      ruleResult.rule_score severity status (some features) ruleResult.matched_rules
      verdict reason (some mlResult) (some ruleResult) now)

/-! ## Specification-side restatements (used to check refinement
claims; phrased from the spec's words, to be compared with the embedded
code) -/

/-- Spec §4.6 step 4: `combined = rule·0.40 + ml·0.25 + semantic·0.35`. -/
def specCombine (rule ml semantic : ℚ) : ℚ :=
  rule * (40/100) + ml * (25/100) + semantic * (35/100)

/-- Spec §4.6 step 5 (score part of the override policy). -/
def specOverrideScore (matched : List RuleMatch) (c : ℚ) : ℚ :=
  if (matched.filter fun r => r.severity = .critical) ≠ [] then max c (85/100)
  else if (matched.filter fun r => r.severity = .high).length ≥ 2 then max c (65/100)
  else if (matched.filter fun r => r.severity = .high).length = 1 then max c (55/100)
  else c

/-- Spec §4.6 step 5 (phishing flag of the override policy, base
threshold 0.45 applied to the boosted score). -/
def specIsPhishing (matched : List RuleMatch) (c : ℚ) : Bool :=
  if (matched.filter fun r => r.severity = .critical) ≠ [] then true
  else if (matched.filter fun r => r.severity = .high).length ≥ 2 then true
  else specOverrideScore matched c ≥ 45/100

/-- Spec §4.6 step 6: severity tiers of the combined score. -/
def specSeverityOf (c : ℚ) : Severity :=
  if c ≥ 8/10 then .critical
  else if c ≥ 6/10 then .high
  else if c ≥ 4/10 then .medium
  else if c ≥ 2/10 then .low
  else .info

/-- Spec §4.6 step 6: verdict mapping. -/
def specVerdict (isPhishing : Bool) (c : ℚ) : String :=
  if isPhishing then "malicious" else if c < 2/10 then "safe" else "suspicious"

/-- A scan result with its timestamp field cleared (to compare two scans
up to the clock reading). -/
def eraseTime (r : ScanResult) : ScanResult := { r with scanned_at := "" }

/-! ## Concrete fixtures used by witnesses and counterexamples -/

/-- A concrete detector bundle: both opaque scorers return 0, the
entropy logarithm oracle is constantly 0. -/
def oracle0 : Detectors := ⟨fun _ => ⟨0⟩, fun _ => ⟨0⟩, fun _ => 0⟩

def intelEmpty : IntelState := ⟨[], []⟩

/-- A threat store blacklisting only the bare label `com`. -/
def intelTld : IntelState := ⟨["com".data], []⟩

/-- A threat store listing the same domain in both sets. -/
def intelBoth : IntelState := ⟨["both.com".data], ["both.com".data]⟩

/-- A threat store blacklisting `evil.com`. -/
def intelEvil : IntelState := ⟨["evil.com".data], []⟩

/-- A feature dictionary whose domain fields name a known legitimate
domain (all other fields at their defaults). -/
def googleFeatures : Features :=
  { domain := "google.com".data, subdomain := "www".data }

def witnessHighMatch : RuleMatch :=
  ⟨"IP Address in URL", some (8/10), .high, some "URL contains IP address instead of domain"⟩

def witnessCriticalMatch : RuleMatch :=
  ⟨"Typosquatting Attack", some (19/20), .critical, none⟩

/-- Spec §4.3: base score of the dominant severity tier. -/
def specBase : Severity → ℚ
  | .critical => 85/100 | .high => 6/10 | .medium => 3/10 | .low => 1/10 | .info => 0

/-- Spec §4.3: each tier's score is capped at the next tier's base. -/
def specCap : Severity → ℚ
  | .critical => 1 | .high => 85/100 | .medium => 6/10 | .low => 3/10 | .info => 0

/-- Spec §4.3, phrased from the spec's words: base score by the dominant
tier, plus a per-tier increment (a parameter, constrained by the spec to
lie within [0.05, 0.10]) for each additional matched rule of the
dominant tier, capped at the next tier's base; plus a flat +0.10 when
the matches span at least two distinct severities, capped at 1.0. -/
def specTieredScore (incC incH incM incL : ℚ) (M : List RuleMatch) : ℚ :=
  if M.isEmpty then 0
  else
    let d := maxSeverity M
    let inc := match d with
      | .critical => incC | .high => incH | .medium => incM | _ => incL
    let t := min (specBase d + ((countSev M d : ℚ) - 1) * inc) (specCap d)
    if 2 ≤ distinctSevCount M then min (t + 1/10) 1 else t

/-- Integer multiples of 1/20; every value of the tiered aggregation is
one, which makes `round(·, 4)` the identity on rule scores. -/
def Mul20 (q : ℚ) : Prop := ∃ n : ℤ, q = n / 20

/-! ## Helper lemmas -/

theorem list_any_map {α β : Type} (f : α → β) (l : List α) (p : β → Bool) :
    (l.map f).any p = l.any fun a => p (f a) := by
  induction l with
  | nil => rfl
  | cons a l ih => simp [List.any_cons, ih]

theorem suffixHits_eq_chain (members : List Str) (d : Str) :
    suffixHits members d = (codeSuffixChain d).any fun p => members.contains p := by
  unfold suffixHits codeSuffixChain
  by_cases h : normalizeDomain d ∈ members
  · simp [h]
  · have hc : members.contains (normalizeDomain d) = false := by
      simpa using h
    rw [List.any_cons, hc]
    simp only [Bool.false_eq_true, if_false, Bool.false_or]
    rw [list_any_map]
    simp [h]

/-! ## Claim theorems: threat-intelligence matching (C8) -/

/-- C8, counterexample: with blacklist `{"com"}`, the query
`example.com` is not reported blacklisted although the bare top-level
label `com` lies on the claim's suffix chain and is a member of the
blacklist — so membership checking does not walk the entire chain of
the claim. -/
theorem C8_counterexample :
    isBlacklisted intelTld ("example.com".data) = false ∧
    ("com".data) ∈ specSuffixChain ("example.com".data) ∧
    ("com".data) ∈ intelTld.blacklist := by
  decide

/-- C8, amended: membership checking walks the suffix chain only down to
suffixes that still have at least two labels (for `a.b.example.com`:
`a.b.example.com`, `b.example.com`, `example.com`); the bare top-level
label is consulted only when it is the whole queried domain.  Stated
as: the blacklist (resp. whitelist) verdict equals an existence check
over exactly that chain, after lowercasing and trimming. -/
theorem C8_suffix_walk (st : IntelState) (d : Str) :
    isBlacklisted st d = ((codeSuffixChain d).any fun p => st.blacklist.contains p) ∧
    isWhitelisted st d = ((codeSuffixChain d).any fun p => st.whitelist.contains p) :=
  ⟨suffixHits_eq_chain st.blacklist d, suffixHits_eq_chain st.whitelist d⟩

/-! ## Claim theorems: feature extraction (C5, C7) -/

/-- C5: `extract_features` is total (it returns a `Features` record for
every input string, never `null` and never an exception); whenever the
parse body fails, the result is the minimal feature dictionary with safe
defaults — zeroed numeric fields, empty suspicious-keyword list, entropy
computed over the raw input string, and the raw input's length and
`https` prefix flag. -/
theorem C5_extract_total (lg : ℚ → ℚ) (url : String) :
    (∃ f, extractBody lg url = .ok f ∧ extract_features lg url = f) ∨
    (∃ e, extractBody lg url = .error e ∧
      extract_features lg url = minimalFeatures lg url e ∧
      (extract_features lg url).url_length = url.length ∧
      (extract_features lg url).domain_length = 0 ∧
      (extract_features lg url).subdomain_length = 0 ∧
      (extract_features lg url).path_length = 0 ∧
      (extract_features lg url).query_length = 0 ∧
      (extract_features lg url).num_digits = 0 ∧
      (extract_features lg url).num_special_chars = 0 ∧
      (extract_features lg url).suspicious_keywords = [] ∧
      (extract_features lg url).num_suspicious_keywords = 0 ∧
      (extract_features lg url).entropy = calcEntropy lg url.data ∧
      (extract_features lg url).has_https = (("https".data).isPrefixOf url.data) ∧
      (extract_features lg url).typosquatting_target = none ∧
      (extract_features lg url).typosquatting_score = 0 ∧
      (extract_features lg url).homograph_chars = [] ∧
      (extract_features lg url).domain = [] ∧
      (extract_features lg url).subdomain = []) := by
  cases h : extractBody lg url with
  | ok f => exact Or.inl ⟨f, rfl, by simp [extract_features, h]⟩
  | error e =>
    refine Or.inr ⟨e, rfl, ?_⟩
    simp [extract_features, h, minimalFeatures]

set_option maxRecDepth 40000 in
/-- C7, counterexample: on the claim's own input
`http://paypa1-secure.com/login`, feature extraction does **not** yield
`typosquatting_target = "paypal"`; the target is `none` and the
similarity score is `0` (the whole-label Levenshtein distance between
`paypa1-secure` and every brand exceeds the thresholds). -/
theorem C7_counterexample :
    (extract_features (fun _ => 0) "http://paypa1-secure.com/login").typosquatting_target ≠
      some ("paypal".data) ∧
    ¬ ((extract_features (fun _ => 0) "http://paypa1-secure.com/login").typosquatting_score > 7/10) := by
  decide

set_option maxRecDepth 40000 in
/-- C7, amended: on `http://paypa1-secure.com/login` the feature
extractor reports no typosquatting (`typosquatting_target = none`,
score `0`, flag unset) because its own normalization rewrites only
`0→o` and `1→l`; the full confusability table
(`0→o, 1→l, |→l, 3→e, 4→a, 5→s, rn→m, vv→w`, a pure string rewrite) lives
in the rule engine's `TyposquattingRule`, which does flag this URL: its
check matches (via the known variant `paypa1` of `paypal`) with critical
severity, and `Typosquatting Attack` appears among the matched rules. -/
theorem C7_amended :
    (extract_features (fun _ => 0) "http://paypa1-secure.com/login").typosquatting_target = none ∧
    (extract_features (fun _ => 0) "http://paypa1-secure.com/login").typosquatting_score = 0 ∧
    (extract_features (fun _ => 0) "http://paypa1-secure.com/login").is_typosquatting = false ∧
    (replaceChar '1' 'i' (replaceChar '1' 'l' (replaceChar '0' 'o' ("paypa1-secure".data))) =
      ("paypal-secure".data)) ∧
    normalizeTypo ("paypa1-secure.com".data) = ("paypal-secure.com".data) ∧
    (typosquattingRule.check ("http://paypa1-secure.com/login".data)
      (extract_features (fun _ => 0) "http://paypa1-secure.com/login")).1 = true ∧
    typosquattingRule.severity = .critical ∧
    (((ruleAnalyze ("http://paypa1-secure.com/login".data)
        (extract_features (fun _ => 0) "http://paypa1-secure.com/login")).matched_rules.map
      (fun r => r.name)).contains "Typosquatting Attack") = true := by
  decide

/-! ## Helper lemmas about the tiered aggregation -/

theorem sevIndex_le_four (s : Severity) : sevIndex s ≤ 4 := by
  cases s <;> decide

theorem sevIndex_le_sevStep (init : Severity) (r : RuleMatch) :
    sevIndex init ≤ sevIndex (sevStep init r) := by
  unfold sevStep
  split
  · omega
  · exact le_refl _

theorem sevStep_self_le (init : Severity) (r : RuleMatch) :
    sevIndex r.severity ≤ sevIndex (sevStep init r) := by
  unfold sevStep
  split
  · exact le_refl _
  · omega

theorem foldl_sevStep_init_le (M : List RuleMatch) (init : Severity) :
    sevIndex init ≤ sevIndex (M.foldl sevStep init) := by
  induction M generalizing init with
  | nil => exact le_refl _
  | cons r M ih =>
    rw [List.foldl_cons]
    exact le_trans (sevIndex_le_sevStep init r) (ih (sevStep init r))

theorem foldl_sevStep_mem_le (M : List RuleMatch) :
    ∀ (init : Severity) (x : RuleMatch), x ∈ M →
      sevIndex x.severity ≤ sevIndex (M.foldl sevStep init) := by
  induction M with
  | nil => intro _ x hx; cases hx
  | cons r M ih =>
    intro init x hx
    rw [List.foldl_cons]
    rcases List.mem_cons.mp hx with rfl | hx'
    · exact le_trans (sevStep_self_le init x) (foldl_sevStep_init_le M _)
    · exact ih _ x hx' 

theorem le_maxSeverity (M : List RuleMatch) (x : RuleMatch) (hx : x ∈ M) :
    sevIndex x.severity ≤ sevIndex (maxSeverity M) :=
  foldl_sevStep_mem_le M .info x hx

theorem foldl_sevStep_attained (M : List RuleMatch) (init : Severity) :
    M.foldl sevStep init = init ∨ ∃ x ∈ M, M.foldl sevStep init = x.severity := by
  induction M generalizing init with
  | nil => exact Or.inl rfl
  | cons r M ih =>
    rw [List.foldl_cons]
    rcases ih (sevStep init r) with h | ⟨x, hx, he⟩
    · rw [h]
      unfold sevStep
      split
      · exact Or.inr ⟨r, List.mem_cons_self r M, rfl⟩
      · exact Or.inl rfl
    · exact Or.inr ⟨x, List.mem_cons_of_mem r hx, he⟩

theorem maxSeverity_attained (M : List RuleMatch) (h : maxSeverity M ≠ .info) :
    ∃ x ∈ M, x.severity = maxSeverity M := by
  rcases foldl_sevStep_attained M .info with h0 | ⟨x, hx, he⟩
  · exact absurd h0 h
  · exact ⟨x, hx, he.symm⟩

theorem foldl_sevStep_critical (M : List RuleMatch) :
    M.foldl sevStep .critical = .critical := by
  induction M with
  | nil => rfl
  | cons r M ih =>
    rw [List.foldl_cons]
    have hs : sevStep .critical r = .critical := by
      unfold sevStep
      split
      · rename_i hlt
        have h4 := sevIndex_le_four r.severity
        have hci : sevIndex Severity.critical = 4 := rfl
        omega
      · rfl
    rw [hs, ih]

theorem maxSeverity_cons_critical (r : RuleMatch) (M : List RuleMatch)
    (h : r.severity = .critical) : maxSeverity (r :: M) = .critical := by
  unfold maxSeverity
  rw [List.foldl_cons]
  have hs : sevStep .info r = .critical := by
    unfold sevStep
    rw [h]
    decide
  rw [hs]
  exact foldl_sevStep_critical M

theorem countSev_cons_eq (r : RuleMatch) (M : List RuleMatch) (s : Severity)
    (h : r.severity = s) : countSev (r :: M) s = countSev M s + 1 := by
  simp [countSev, List.filter_cons, h]

theorem countSev_zero_of_below (M : List RuleMatch) (s : Severity)
    (h : ∀ x ∈ M, sevIndex x.severity < sevIndex s) : countSev M s = 0 := by
  unfold countSev
  rw [List.length_eq_zero]
  rw [List.filter_eq_nil]
  intro x hx
  have := h x hx
  simp only [decide_eq_true_eq]
  intro he
  rw [he] at this
  omega

theorem countSev_pos_of_max (M : List RuleMatch) (s : Severity)
    (hmax : maxSeverity M = s) (hs : s ≠ .info) : 0 < countSev M s := by
  obtain ⟨x, hx, he⟩ := maxSeverity_attained M (by rw [hmax]; exact hs)
  have hxs : x.severity = s := by rw [he, hmax]
  have : x ∈ M.filter fun y => y.severity = s :=
    List.mem_filter.mpr ⟨hx, by simp [hxs]⟩
  exact List.length_pos_of_mem this

theorem filter_length_mono {α : Type} (P Q : α → Bool) (l : List α)
    (h : ∀ a, P a = true → Q a = true) :
    (l.filter P).length ≤ (l.filter Q).length := by
  induction l with
  | nil => exact le_refl _
  | cons a l ih =>
    by_cases hP : P a = true
    · rw [List.filter_cons_of_pos hP, List.filter_cons_of_pos (h a hP)]
      simpa using ih
    · rw [List.filter_cons_of_neg (by simpa using hP)]
      by_cases hQ : Q a = true
      · rw [List.filter_cons_of_pos hQ]
        exact le_trans ih (by simp)
      · rw [List.filter_cons_of_neg (by simpa using hQ)]
        exact ih

theorem distinct_le_cons (r : RuleMatch) (M : List RuleMatch) :
    distinctSevCount M ≤ distinctSevCount (r :: M) := by
  unfold distinctSevCount
  refine filter_length_mono _ _ _ fun s hs => ?_
  simp only [List.any_cons]
  rw [hs]
  simp

theorem distinct_cons_of_present (r : RuleMatch) (M : List RuleMatch)
    (h : (M.any fun x => x.severity = r.severity) = true) :
    distinctSevCount (r :: M) = distinctSevCount M := by
  unfold distinctSevCount
  congr 1
  refine List.filter_congr fun s _ => ?_
  simp only [List.any_cons]
  by_cases he : r.severity = s
  · rw [← he]
    rw [h]
    simp
  · simp [he]

theorem mem_allSeverities (s : Severity) : s ∈ allSeverities := by
  cases s <;> decide

theorem two_le_length_of_two_mem {l : List Severity} {a b : Severity}
    (ha : a ∈ l) (hb : b ∈ l) (hab : a ≠ b) : 2 ≤ l.length := by
  match l with
  | [] => cases ha
  | [x] =>
    rw [List.mem_singleton] at ha hb
    exact absurd (ha.trans hb.symm) hab
  | x :: y :: l => simp only [List.length_cons]; omega

theorem two_le_distinct (M : List RuleMatch) (s1 s2 : Severity) (hne : s1 ≠ s2)
    (h1 : (M.any fun x => x.severity = s1) = true)
    (h2 : (M.any fun x => x.severity = s2) = true) :
    2 ≤ distinctSevCount M := by
  unfold distinctSevCount
  have m1 : s1 ∈ allSeverities.filter fun s => M.any fun x => x.severity = s :=
    List.mem_filter.mpr ⟨mem_allSeverities s1, h1⟩
  have m2 : s2 ∈ allSeverities.filter fun s => M.any fun x => x.severity = s :=
    List.mem_filter.mpr ⟨mem_allSeverities s2, h2⟩
  exact two_le_length_of_two_mem m1 m2 hne

theorem roundHalfEven_intCast (n : ℤ) : roundHalfEven (n : ℚ) = n := by
  unfold roundHalfEven
  rw [Int.floor_intCast]
  norm_num

theorem round4_mul20 (q : ℚ) (h : Mul20 q) : round4 q = q := by
  obtain ⟨n, rfl⟩ := h
  unfold round4
  have he : (n : ℚ) / 20 * 10000 = ((500 * n : ℤ) : ℚ) := by push_cast; ring
  rw [he, roundHalfEven_intCast]
  push_cast
  ring

theorem mul20_min {a b : ℚ} (ha : Mul20 a) (hb : Mul20 b) : Mul20 (min a b) := by
  rcases le_total a b with h | h
  · rw [min_eq_left h]; exact ha
  · rw [min_eq_right h]; exact hb

theorem mul20_add {a b : ℚ} (ha : Mul20 a) (hb : Mul20 b) : Mul20 (a + b) := by
  obtain ⟨m, rfl⟩ := ha
  obtain ⟨k, rfl⟩ := hb
  exact ⟨m + k, by push_cast; ring⟩

theorem mul20_tier_critical (c : ℕ) : Mul20 ((85/100) + ((c : ℚ) - 1) * (5/100)) :=
  ⟨17 + ((c : ℤ) - 1), by push_cast; ring⟩

theorem mul20_tier_high (c : ℕ) : Mul20 ((6/10) + ((c : ℚ) - 1) * (1/10)) :=
  ⟨12 + 2 * ((c : ℤ) - 1), by push_cast; ring⟩

theorem mul20_tier_medium (c : ℕ) : Mul20 ((3/10) + ((c : ℚ) - 1) * (1/10)) :=
  ⟨6 + 2 * ((c : ℤ) - 1), by push_cast; ring⟩

theorem mul20_tier_low (c : ℕ) : Mul20 ((1/10) + ((c : ℚ) - 1) * (5/100)) :=
  ⟨2 + ((c : ℤ) - 1), by push_cast; ring⟩

theorem mul20_aggregate (M : List RuleMatch) : Mul20 (aggregate M) := by
  unfold aggregate
  have hbonus : ∀ t : ℚ, Mul20 t →
      Mul20 (if 2 ≤ distinctSevCount M then min (t + 1/10) 1 else t) := by
    intro t ht
    split
    · exact mul20_min (mul20_add ht ⟨2, by norm_num⟩) ⟨20, by norm_num⟩
    · exact ht
  apply hbonus
  split_ifs
  · exact mul20_min (mul20_tier_critical _) ⟨20, by norm_num⟩
  · exact mul20_min (mul20_tier_high _) ⟨17, by norm_num⟩
  · exact mul20_min (mul20_tier_medium _) ⟨12, by norm_num⟩
  · exact mul20_min (mul20_tier_low _) ⟨6, by norm_num⟩

theorem mul20_ruleScoreRaw (M : List RuleMatch) : Mul20 (ruleScoreRaw M) := by
  unfold ruleScoreRaw
  split
  · exact ⟨0, by norm_num⟩
  · exact mul20_aggregate M

theorem aggregate_nonneg (M : List RuleMatch) : 0 ≤ aggregate M := by
  unfold aggregate
  have hc : (0:ℚ) ≤ (countSev M .critical : ℚ) := Nat.cast_nonneg _
  have hh : (0:ℚ) ≤ (countSev M .high : ℚ) := Nat.cast_nonneg _
  have hm : (0:ℚ) ≤ (countSev M .medium : ℚ) := Nat.cast_nonneg _
  have hl : (0:ℚ) ≤ (M.length : ℚ) := Nat.cast_nonneg _
  have hbonus : ∀ t : ℚ, 0 ≤ t →
      0 ≤ (if 2 ≤ distinctSevCount M then min (t + 1/10) 1 else t) := by
    intro t ht
    split
    · exact le_min_iff.mpr ⟨by linarith, by norm_num⟩
    · exact ht
  apply hbonus
  split_ifs <;> exact le_min_iff.mpr ⟨by linarith, by norm_num⟩

theorem aggregate_le_one (M : List RuleMatch) : aggregate M ≤ 1 := by
  unfold aggregate
  have hbonus : ∀ t : ℚ, t ≤ 85/100 ∨ t ≤ 1 →
      (if 2 ≤ distinctSevCount M then min (t + 1/10) 1 else t) ≤ 1 := by
    intro t ht
    split
    · exact min_le_right _ _
    · rcases ht with h | h
      · linarith
      · exact h
  apply hbonus
  split_ifs
  · exact Or.inr (min_le_right _ _)
  · exact Or.inl (min_le_right _ _)
  · exact Or.inl (le_trans (min_le_right _ _) (by norm_num))
  · exact Or.inl (le_trans (min_le_right _ _) (by norm_num))

theorem ruleScoreRaw_nonneg (M : List RuleMatch) : 0 ≤ ruleScoreRaw M := by
  unfold ruleScoreRaw
  split
  · exact le_refl 0
  · exact aggregate_nonneg M

theorem ruleScoreRaw_le_one (M : List RuleMatch) : ruleScoreRaw M ≤ 1 := by
  unfold ruleScoreRaw
  split
  · norm_num
  · exact aggregate_le_one M

theorem ruleOutcome_severity {url : Str} {f : Features} {b : Bool} {r : Rule}
    {x : RuleMatch} (h : ruleOutcome url f b r = some x) : x.severity = r.severity := by
  simp only [ruleOutcome] at h
  split at h
  · exact absurd h (by simp)
  · split at h
    · cases Option.some.inj h
      rfl
    · exact absurd h (by simp)

theorem ruleOutcome_name {url : Str} {f : Features} {b : Bool} {r : Rule}
    {x : RuleMatch} (h : ruleOutcome url f b r = some x) : x.name = r.name := by
  simp only [ruleOutcome] at h
  split at h
  · exact absurd h (by simp)
  · split at h
    · cases Option.some.inj h
      rfl
    · exact absurd h (by simp)

theorem catalog_severity_ne_info {r : Rule} (hr : r ∈ ruleCatalog) :
    r.severity ≠ .info := by
  fin_cases hr <;> decide

theorem matched_severity_valid (url : Str) (f : Features) :
    ∀ x ∈ (ruleAnalyze url f).matched_rules, x.severity ≠ .info := by
  intro x hx
  have hx' : x ∈ ruleCatalog.filterMap
      (ruleOutcome url f (is_known_legitimate_domain url f)) := hx
  obtain ⟨r, hr, hout⟩ := List.mem_filterMap.mp hx'
  rw [ruleOutcome_severity hout]
  exact catalog_severity_ne_info hr

theorem countSev_low_eq_length (M : List RuleMatch)
    (hmax : maxSeverity M = .low) (hv : ∀ x ∈ M, x.severity ≠ .info) :
    countSev M .low = M.length := by
  unfold countSev
  rw [List.filter_eq_self.mpr]
  intro x hx
  have h1 := le_maxSeverity M x hx
  rw [hmax] at h1
  have h2 := hv x hx
  cases hs : x.severity <;> rw [hs] at h1 h2 <;> simp [sevIndex] at h1 ⊢ <;> try exact absurd rfl h2

theorem aggregate_eq_specTiered (M : List RuleMatch) (hM : ¬ M.isEmpty = true)
    (hv : ∀ x ∈ M, x.severity ≠ .info) :
    aggregate M = specTieredScore (1/20) (1/10) (1/10) (1/20) M := by
  have hMne : M ≠ [] := by
    intro h
    exact hM (by simp [h])
  simp only [aggregate, specTieredScore, if_neg hM]
  cases hmax : maxSeverity M with
  | info =>
    obtain ⟨x, hxm⟩ := List.exists_mem_of_ne_nil M hMne
    have h1 := le_maxSeverity M x hxm
    rw [hmax] at h1
    have h2 := hv x hxm
    cases hs : x.severity <;> rw [hs] at h1 h2 <;> simp [sevIndex] at h1 <;>
      try exact absurd rfl h2
  | low =>
    simp only [hmax]
    rw [countSev_low_eq_length M hmax hv]
    simp [specBase, specCap]
    split_ifs <;> norm_num
  | medium =>
    simp only [hmax]
    simp [specBase, specCap]
  | high =>
    simp only [hmax]
    simp [specBase, specCap]
  | critical =>
    simp only [hmax]
    simp [specBase, specCap]
    split_ifs <;> norm_num

/-! ## Claim theorems: rule engine (C4, C9, C10) -/

/-- C4: the rule engine's score is 0.0 with no matches, and otherwise
follows the tiered policy with per-tier increments 0.05 (critical, low)
and 0.10 (high, medium) — all within the claimed [0.05, 0.10] — capped
at the next tier's base, a flat +0.10 spanning bonus capped at 1.0; the
score always lies in [0, 1] and the reported severity is the dominant
matched severity (info when nothing matched). -/
theorem C4_rule_score_policy :
    ∃ incC incH incM incL : ℚ,
      (1/20 ≤ incC ∧ incC ≤ 1/10) ∧ (1/20 ≤ incH ∧ incH ≤ 1/10) ∧
      (1/20 ≤ incM ∧ incM ≤ 1/10) ∧ (1/20 ≤ incL ∧ incL ≤ 1/10) ∧
      ∀ (url : Str) (f : Features),
        (ruleAnalyze url f).rule_score =
          specTieredScore incC incH incM incL (ruleAnalyze url f).matched_rules ∧
        (ruleAnalyze url f).severity =
          (if (ruleAnalyze url f).matched_rules.isEmpty then Severity.info
           else maxSeverity (ruleAnalyze url f).matched_rules) ∧
        0 ≤ (ruleAnalyze url f).rule_score ∧ (ruleAnalyze url f).rule_score ≤ 1 := by
  refine ⟨1/20, 1/10, 1/10, 1/20,
    ⟨le_refl _, by norm_num⟩, ⟨by norm_num, le_refl _⟩,
    ⟨by norm_num, le_refl _⟩, ⟨le_refl _, by norm_num⟩, ?_⟩
  intro url f
  have hv := matched_severity_valid url f
  have hsc : (ruleAnalyze url f).rule_score =
      round4 (ruleScoreRaw (ruleAnalyze url f).matched_rules) := rfl
  have hid := round4_mul20 _ (mul20_ruleScoreRaw (ruleAnalyze url f).matched_rules)
  refine ⟨?_, rfl, ?_, ?_⟩
  · rw [hsc, hid]
    by_cases hMe : (ruleAnalyze url f).matched_rules.isEmpty = true
    · unfold ruleScoreRaw specTieredScore
      rw [if_pos hMe, if_pos hMe]
    · unfold ruleScoreRaw
      rw [if_neg hMe]
      exact aggregate_eq_specTiered _ hMe hv
  · rw [hsc, hid]
    exact ruleScoreRaw_nonneg _
  · rw [hsc, hid]
    exact ruleScoreRaw_le_one _

/-- C9: on the known-legitimate-domain fast path, every matched rule is
one of the two always-run rules (the data-URI-scheme detector and the
homograph detector), and the rule score is computed from that matched
list alone. -/
theorem C9_legit_fast_path (url : Str) (f : Features)
    (h : is_known_legitimate_domain url f = true) :
    (∀ x ∈ (ruleAnalyze url f).matched_rules,
        x.name = "Data URI Scheme" ∨ x.name = "Potential Homograph Attack") ∧
    (ruleAnalyze url f).rule_score =
      round4 (ruleScoreRaw (ruleAnalyze url f).matched_rules) := by
  refine ⟨?_, rfl⟩
  intro x hx
  have hx' : x ∈ ruleCatalog.filterMap
      (ruleOutcome url f (is_known_legitimate_domain url f)) := hx
  rw [h] at hx'
  obtain ⟨r, _, hout⟩ := List.mem_filterMap.mp hx'
  have hname := ruleOutcome_name hout
  have hc : alwaysRunRules.contains r.name = true := by
    unfold ruleOutcome at hout
    split at hout
    · exact absurd hout (by simp)
    · rename_i hcond
      by_contra hcc
      exact hcond ⟨rfl, by simpa using hcc⟩
  rw [hname]
  have : r.name ∈ alwaysRunRules := by simpa using hc
  simpa [alwaysRunRules] using this

/-- C9, witness: the rule engine run on `https://www.google.com` with a
feature dictionary naming the known legitimate domain `google.com`
matches only always-run rules. -/
theorem C9_witness :
    is_known_legitimate_domain ("https://www.google.com".data) googleFeatures = true ∧
    ((∀ x ∈ (ruleAnalyze ("https://www.google.com".data) googleFeatures).matched_rules,
        x.name = "Data URI Scheme" ∨ x.name = "Potential Homograph Attack") ∧
     (ruleAnalyze ("https://www.google.com".data) googleFeatures).rule_score =
       round4 (ruleScoreRaw
         (ruleAnalyze ("https://www.google.com".data) googleFeatures).matched_rules)) :=
  ⟨by decide, C9_legit_fast_path ("https://www.google.com".data) googleFeatures (by decide)⟩

/-- C10: adding one more critical-severity matched rule can never
decrease the tiered rule score. -/
theorem C10_monotone_critical (M : List RuleMatch) (r : RuleMatch)
    (h : r.severity = .critical) :
    round4 (ruleScoreRaw M) ≤ round4 (ruleScoreRaw (r :: M)) := by
  rw [round4_mul20 _ (mul20_ruleScoreRaw M), round4_mul20 _ (mul20_ruleScoreRaw (r :: M))]
  unfold ruleScoreRaw
  rw [if_neg (by simp : ¬ (r :: M).isEmpty = true)]
  by_cases hMe : M = []
  · subst hMe
    have h0 : (if ([] : List RuleMatch).isEmpty = true then (0:ℚ) else aggregate []) = 0 := rfl
    rw [h0]
    exact aggregate_nonneg [r]
  · rw [if_neg (by simpa using hMe)]
    have hmaxc := maxSeverity_cons_critical r M h
    have hmono : ∀ c X Y : ℚ, X ≤ Y → min X c ≤ min Y c :=
      fun c X Y hXY => min_le_min hXY (le_refl c)
    by_cases hcrit : maxSeverity M = .critical
    · -- the dominant tier is already critical: the critical count grows by
      -- one and the severity spectrum is unchanged
      obtain ⟨x, hxm, hxs⟩ := maxSeverity_attained M (by rw [hcrit]; decide)
      have hpres : (M.any fun y => y.severity = r.severity) = true := by
        rw [h]
        exact List.any_eq_true.mpr ⟨x, hxm, by simp [hxs, hcrit]⟩
      have hd := distinct_cons_of_present r M hpres
      have hc1 := countSev_cons_eq r M .critical h
      have hXY : (85:ℚ)/100 + ((countSev M .critical : ℚ) - 1) * (5/100) ≤
          (85:ℚ)/100 + (((countSev M .critical : ℚ) + 1) - 1) * (5/100) := by
        linarith
      simp only [aggregate, hmaxc, hcrit, hd, hc1]
      simp only [if_pos rfl, Nat.cast_add, Nat.cast_one]
      split_ifs
      · exact hmono 1 _ _ (by linarith [hmono 1 _ _ hXY])
      · exact hmono 1 _ _ hXY
    · -- the old dominant tier is below critical: the new score is exactly
      -- 0.95 and every old score is at most 0.95
      have hci : sevIndex Severity.critical = 4 := rfl
      have hbelow : ∀ x ∈ M, sevIndex x.severity < sevIndex Severity.critical := by
        intro x hx
        have h1 := le_maxSeverity M x hx
        cases hm : maxSeverity M with
        | critical => exact absurd hm hcrit
        | info =>
          rw [hm] at h1
          have h0 : sevIndex Severity.info = 0 := rfl
          omega
        | low =>
          rw [hm] at h1
          have h0 : sevIndex Severity.low = 1 := rfl
          omega
        | medium =>
          rw [hm] at h1
          have h0 : sevIndex Severity.medium = 2 := rfl
          omega
        | high =>
          rw [hm] at h1
          have h0 : sevIndex Severity.high = 3 := rfl
          omega
      have hcc0 : countSev M .critical = 0 := countSev_zero_of_below M .critical hbelow
      have hc1 : countSev (r :: M) .critical = 1 := by
        rw [countSev_cons_eq r M .critical h, hcc0]
      obtain ⟨y, hym⟩ := List.exists_mem_of_ne_nil M hMe
      have hyne : y.severity ≠ .critical := by
        intro he
        have := hbelow y hym
        rw [he] at this
        omega
      have hd2 : distinctSevCount (r :: M) ≥ 2 := by
        refine two_le_distinct (r :: M) .critical y.severity (fun he => hyne he.symm) ?_ ?_
        · exact List.any_eq_true.mpr ⟨r, List.mem_cons_self r M, by simp [h]⟩
        · exact List.any_eq_true.mpr ⟨y, List.mem_cons_of_mem r hym, by simp⟩
      have hnew : aggregate (r :: M) = 95/100 := by
        simp only [aggregate, hmaxc, hc1]
        rw [if_pos hd2]
        simp
        norm_num
      rw [hnew]
      have hb : ∀ t : ℚ, t ≤ 85/100 →
          (if distinctSevCount M ≥ 2 then min (t + 1/10) 1 else t) ≤ 95/100 := by
        intro t ht
        split
        · exact le_trans (min_le_left _ _) (by linarith)
        · linarith
      have hcap : aggregate M ≤ 95/100 := by
        simp only [aggregate]
        apply hb
        split_ifs with hA hB
        · exact min_le_right _ _
        · exact le_trans (min_le_right _ _) (by norm_num)
        · exact le_trans (min_le_right _ _) (by norm_num)
      exact hcap

/-- C10, witness: adding a critical typosquatting match to a singleton
high-severity match list raises the score (0.6 to 0.95, both after
rounding). -/
theorem C10_witness :
    witnessCriticalMatch.severity = Severity.critical ∧
    round4 (ruleScoreRaw [witnessHighMatch]) ≤
      round4 (ruleScoreRaw (witnessCriticalMatch :: [witnessHighMatch])) :=
  ⟨rfl, C10_monotone_critical [witnessHighMatch] witnessCriticalMatch rfl⟩

/-! ## Helper lemmas about the orchestrator -/

theorem round4_zero : round4 0 = 0 :=
  round4_mul20 0 ⟨0, by norm_num⟩

/-- The override step of `analyze_url` computes exactly the spec's
override score and phishing flag. -/
theorem override_eq (M : List RuleMatch) (c : ℚ) :
    (if (M.filter fun r => r.severity = .critical) ≠ [] then (max c (85/100), true)
     else if (M.filter fun r => r.severity = .high) ≠ [] ∧
         (M.filter fun r => r.severity = .high).length ≥ 2 then (max c (65/100), true)
     else if (M.filter fun r => r.severity = .high) ≠ [] then
       (max c (55/100), decide (max c (55/100) ≥ 45/100))
     else (c, decide (c ≥ 45/100))) =
    (specOverrideScore M c, specIsPhishing M c) := by
  by_cases h1 : (M.filter fun r => r.severity = .critical) = []
  · by_cases h2 : (M.filter fun r => r.severity = .high).length ≥ 2
    · have hne : (M.filter fun r => r.severity = .high) ≠ [] := by
        intro he
        rw [he] at h2
        simp at h2
      simp [specIsPhishing, specOverrideScore, h1, h2, hne]
    · by_cases h3 : (M.filter fun r => r.severity = .high) = []
      · have hlen : ¬ (M.filter fun r => r.severity = .high).length = 1 := by
          rw [h3]
          simp
        simp [specIsPhishing, specOverrideScore, h1, h2, h3, hlen]
      · have hlen : (M.filter fun r => r.severity = .high).length = 1 := by
          have hpos : 0 < (M.filter fun r => r.severity = .high).length :=
            List.length_pos.mpr h3
          omega
        simp [specIsPhishing, specOverrideScore, h1, h2, h3, hlen]
  · simp [specIsPhishing, specOverrideScore, h1]

/-! ## Claim theorems: orchestrator (C1, C2, C3, C6) -/

set_option maxHeartbeats 2000000 in
/-- C1: off the threat-intelligence fast paths, the orchestrator combines
the three component scores with weights 0.40 (rule), 0.25 (ML), 0.35
(semantic), applies the critical/high override policy with base
threshold 0.45, and maps the boosted score to severity tiers and a
verdict exactly as the claim states. -/
theorem C1_ensemble_policy (D : Detectors) (intel : IntelState) (url now : String)
    (hw : (check_domain intel (registeredDomain url.data)).is_whitelisted = false)
    (hb : (check_domain intel (registeredDomain url.data)).is_blacklisted = false) :
    ∃ res, analyze_url D intel url now = .ok res ∧
      (res.is_phishing =
        specIsPhishing (ruleAnalyze url.data (extract_features D.lg url)).matched_rules
          (specCombine (ruleAnalyze url.data (extract_features D.lg url)).rule_score
            (D.mlPredict url).ml_score (D.bertPredict url).combined_score) ∧
       res.confidence_score =
        round4 (specOverrideScore (ruleAnalyze url.data (extract_features D.lg url)).matched_rules
          (specCombine (ruleAnalyze url.data (extract_features D.lg url)).rule_score
            (D.mlPredict url).ml_score (D.bertPredict url).combined_score)) ∧
       res.severity =
        specSeverityOf (specOverrideScore (ruleAnalyze url.data (extract_features D.lg url)).matched_rules
          (specCombine (ruleAnalyze url.data (extract_features D.lg url)).rule_score
            (D.mlPredict url).ml_score (D.bertPredict url).combined_score)) ∧
       res.verdict =
        specVerdict
          (specIsPhishing (ruleAnalyze url.data (extract_features D.lg url)).matched_rules
            (specCombine (ruleAnalyze url.data (extract_features D.lg url)).rule_score
              (D.mlPredict url).ml_score (D.bertPredict url).combined_score))
          (specOverrideScore (ruleAnalyze url.data (extract_features D.lg url)).matched_rules
            (specCombine (ruleAnalyze url.data (extract_features D.lg url)).rule_score
              (D.mlPredict url).ml_score (D.bertPredict url).combined_score)) ∧
       res.status =
        (if specIsPhishing (ruleAnalyze url.data (extract_features D.lg url)).matched_rules
            (specCombine (ruleAnalyze url.data (extract_features D.lg url)).rule_score
              (D.mlPredict url).ml_score (D.bertPredict url).combined_score)
         then "blocked" else "active") ∧
       res.matched_rules = (ruleAnalyze url.data (extract_features D.lg url)).matched_rules ∧
       res.ml_score = round4 (D.mlPredict url).ml_score ∧
       res.rule_score = round4 (ruleAnalyze url.data (extract_features D.lg url)).rule_score) := by
  have hcomb :
      (D.bertPredict url).combined_score * bert_weight +
        (D.mlPredict url).ml_score * ml_weight +
        (ruleAnalyze url.data (extract_features D.lg url)).rule_score * rule_weight =
      specCombine (ruleAnalyze url.data (extract_features D.lg url)).rule_score
        (D.mlPredict url).ml_score (D.bertPredict url).combined_score := by
    unfold specCombine bert_weight ml_weight rule_weight
    ring
  have hov := override_eq (ruleAnalyze url.data (extract_features D.lg url)).matched_rules
    (specCombine (ruleAnalyze url.data (extract_features D.lg url)).rule_score
      (D.mlPredict url).ml_score (D.bertPredict url).combined_score)
  simp only [analyze_url, hw, hb, Bool.false_eq_true, if_false]
  refine ⟨_, rfl, ?_⟩
  simp only [create_result, hcomb, hov, specSeverityOf, specVerdict]
  simp

/-- C1, witness: a URL off both lists under concrete oracles. -/
theorem C1_witness :
    (check_domain intelEmpty (registeredDomain ("http://example.com").data)).is_whitelisted
        = false ∧
    (check_domain intelEmpty (registeredDomain ("http://example.com").data)).is_blacklisted
        = false ∧
    ∃ res, analyze_url oracle0 intelEmpty "http://example.com" "2026-01-01T00:00:00" = .ok res ∧
      (res.is_phishing =
        specIsPhishing (ruleAnalyze ("http://example.com").data
            (extract_features oracle0.lg "http://example.com")).matched_rules
          (specCombine (ruleAnalyze ("http://example.com").data
              (extract_features oracle0.lg "http://example.com")).rule_score
            (oracle0.mlPredict "http://example.com").ml_score
            (oracle0.bertPredict "http://example.com").combined_score) ∧
       res.confidence_score =
        round4 (specOverrideScore (ruleAnalyze ("http://example.com").data
            (extract_features oracle0.lg "http://example.com")).matched_rules
          (specCombine (ruleAnalyze ("http://example.com").data
              (extract_features oracle0.lg "http://example.com")).rule_score
            (oracle0.mlPredict "http://example.com").ml_score
            (oracle0.bertPredict "http://example.com").combined_score)) ∧
       res.severity =
        specSeverityOf (specOverrideScore (ruleAnalyze ("http://example.com").data
            (extract_features oracle0.lg "http://example.com")).matched_rules
          (specCombine (ruleAnalyze ("http://example.com").data
              (extract_features oracle0.lg "http://example.com")).rule_score
            (oracle0.mlPredict "http://example.com").ml_score
            (oracle0.bertPredict "http://example.com").combined_score)) ∧
       res.verdict =
        specVerdict
          (specIsPhishing (ruleAnalyze ("http://example.com").data
              (extract_features oracle0.lg "http://example.com")).matched_rules
            (specCombine (ruleAnalyze ("http://example.com").data
                (extract_features oracle0.lg "http://example.com")).rule_score
              (oracle0.mlPredict "http://example.com").ml_score
              (oracle0.bertPredict "http://example.com").combined_score))
          (specOverrideScore (ruleAnalyze ("http://example.com").data
              (extract_features oracle0.lg "http://example.com")).matched_rules
            (specCombine (ruleAnalyze ("http://example.com").data
                (extract_features oracle0.lg "http://example.com")).rule_score
              (oracle0.mlPredict "http://example.com").ml_score
              (oracle0.bertPredict "http://example.com").combined_score)) ∧
       res.status =
        (if specIsPhishing (ruleAnalyze ("http://example.com").data
            (extract_features oracle0.lg "http://example.com")).matched_rules
            (specCombine (ruleAnalyze ("http://example.com").data
                (extract_features oracle0.lg "http://example.com")).rule_score
              (oracle0.mlPredict "http://example.com").ml_score
              (oracle0.bertPredict "http://example.com").combined_score)
         then "blocked" else "active") ∧
       res.matched_rules = (ruleAnalyze ("http://example.com").data
          (extract_features oracle0.lg "http://example.com")).matched_rules ∧
       res.ml_score = round4 (oracle0.mlPredict "http://example.com").ml_score ∧
       res.rule_score = round4 (ruleAnalyze ("http://example.com").data
          (extract_features oracle0.lg "http://example.com")).rule_score) :=
  ⟨by decide, by decide,
   C1_ensemble_policy oracle0 intelEmpty "http://example.com" "2026-01-01T00:00:00"
     (by decide) (by decide)⟩

/-- C2: a whitelisted domain short-circuits to a safe result with all
scores 0.0, severity info, empty features and matched rules — even when
the domain is also blacklisted — and the result does not depend on the
injected scorers (the rule engine, statistical classifier and pattern
classifier do not contribute). -/
theorem C2_whitelist_precedence (D Dp : Detectors) (intel : IntelState) (url now : String)
    (hw : (check_domain intel (registeredDomain url.data)).is_whitelisted = true) :
    analyze_url D intel url now = .ok
      { url := url, domain := registeredDomain url.data, is_phishing := false,
        confidence_score := 0, ml_score := 0, rule_score := 0, severity := .info,
        status := "active", features := none, matched_rules := [], verdict := "safe",
        reason := "Domain is whitelisted", ml_details := none, rule_details := none,
        scanned_at := now } ∧
    analyze_url D intel url now = analyze_url Dp intel url now := by
  constructor
  · simp only [analyze_url, hw, if_true, create_result, round4_zero]
  · simp only [analyze_url, hw, if_true]

/-- C2, witness: a domain listed in both the whitelist and the
blacklist still yields the safe whitelist result, for two different
detector bundles. -/
theorem C2_witness :
    (check_domain intelBoth (registeredDomain ("http://both.com").data)).is_whitelisted
        = true ∧
    (analyze_url oracle0 intelBoth "http://both.com" "2026-01-01T00:00:00" = .ok
      { url := "http://both.com", domain := registeredDomain ("http://both.com").data,
        is_phishing := false, confidence_score := 0, ml_score := 0, rule_score := 0,
        severity := .info, status := "active", features := none, matched_rules := [],
        verdict := "safe", reason := "Domain is whitelisted", ml_details := none,
        rule_details := none, scanned_at := "2026-01-01T00:00:00" } ∧
     analyze_url oracle0 intelBoth "http://both.com" "2026-01-01T00:00:00" =
       analyze_url ⟨fun _ => ⟨1⟩, fun _ => ⟨1⟩, fun _ => 1⟩ intelBoth
         "http://both.com" "2026-01-01T00:00:00") :=
  ⟨by decide,
   C2_whitelist_precedence oracle0 ⟨fun _ => ⟨1⟩, fun _ => ⟨1⟩, fun _ => 1⟩ intelBoth
     "http://both.com" "2026-01-01T00:00:00" (by decide)⟩

/-- C3 (code bug): on a blacklisted, non-whitelisted domain the source
calls `_create_result(..., bert_score=1.0, ...)`, but `_create_result`
has no `bert_score` parameter, so the call raises `TypeError` instead of
returning the claimed malicious/critical/1.0 result. -/
theorem C3_blacklist_crash (D : Detectors) (intel : IntelState) (url now : String)
    (hw : (check_domain intel (registeredDomain url.data)).is_whitelisted = false)
    (hb : (check_domain intel (registeredDomain url.data)).is_blacklisted = true) :
    analyze_url D intel url now =
      .error "TypeError: _create_result() got an unexpected keyword argument bert_score" := by
  simp only [analyze_url, hw, hb, Bool.false_eq_true, if_false, if_true]

/-- C3, witness: scanning `http://evil.com` with `evil.com` blacklisted
raises the modelled `TypeError`. -/
theorem C3_witness :
    (check_domain intelEvil (registeredDomain ("http://evil.com").data)).is_whitelisted
        = false ∧
    (check_domain intelEvil (registeredDomain ("http://evil.com").data)).is_blacklisted
        = true ∧
    analyze_url oracle0 intelEvil "http://evil.com" "2026-01-01T00:00:00" =
      .error "TypeError: _create_result() got an unexpected keyword argument bert_score" :=
  ⟨by decide, by decide,
   C3_blacklist_crash oracle0 intelEvil "http://evil.com" "2026-01-01T00:00:00"
     (by decide) (by decide)⟩

/-- C6, counterexample: two calls of `analyze_url` on the same URL at
different clock readings return different `ScanResult`s — the
`scanned_at` field records each call's own timestamp, so the results are
not identical "including the timestamp". -/
theorem C6_counterexample :
    analyze_url oracle0 intelEmpty "http://example.com" "2026-01-01T00:00:00" ≠
    analyze_url oracle0 intelEmpty "http://example.com" "2026-01-01T00:00:01" := by
  intro h
  have h2 : (Except.ok "2026-01-01T00:00:00" : Except String String) =
      Except.ok "2026-01-01T00:00:01" := by
    calc (Except.ok "2026-01-01T00:00:00" : Except String String)
        = (analyze_url oracle0 intelEmpty "http://example.com"
            "2026-01-01T00:00:00").map (fun r => r.scanned_at) := by rfl
      _ = (analyze_url oracle0 intelEmpty "http://example.com"
            "2026-01-01T00:00:01").map (fun r => r.scanned_at) := by rw [h]
      _ = Except.ok "2026-01-01T00:00:01" := by rfl
  simp at h2

/-- C6, amended: for a fixed detector bundle (model, rule catalog,
threat store and fixed responses of the injected scorers), two calls of
`analyze_url` on the same URL agree on every field except `scanned_at`,
which records each call's own clock reading. -/
theorem C6_deterministic_mod_time (D : Detectors) (intel : IntelState) (url t1 t2 : String) :
    (analyze_url D intel url t1).map eraseTime =
    (analyze_url D intel url t2).map eraseTime := by
  by_cases hw : (check_domain intel (registeredDomain url.data)).is_whitelisted = true
  · simp only [analyze_url, hw, if_true]
    rfl
  · by_cases hb : (check_domain intel (registeredDomain url.data)).is_blacklisted = true
    · simp only [analyze_url, hw, hb, if_true, if_false]
      rfl
    · simp only [analyze_url, hw, hb, if_false]
      rfl

end ZTF
